import Mathlib

set_option linter.unusedVariables false

/-!
Shallow embedding of the Marketplace reindexing workflow
(`lib/es/management/commands/reindex_mkt.py`).

The workflow talks to two external collaborators: the Elasticsearch
store (through `pyelasticsearch`) and the relational database holding
`Reindexing` flag records.  We model the observable state of both in a
`World`, and each task of the command as a function
`World → World × List Call × Option Err`: the updated world, the trace
of administrative calls the task issued (in order), and the error the
task raised, if any.  The `celery_tasktree` chain built by
`Command.handle` executes tasks strictly in order, a task running only
after its parent succeeded; `runSteps` below is that executor.

External failure modes (transport failures, the health wait exceeding
its bound) are modelled as boolean fields of the store so that every
fail-fast scenario is expressible.  Per the interface description, the
store's health wait with `wait_for_status` raises an HTTP error when
the bounded wait (default ceiling 30s) expires, and deleting a missing
index raises an HTTP NotFound error.
-/

/-- Constant from the source: default replica count used when the old
index's settings are unavailable. -/
def DEFAULT_NUM_REPLICAS : Nat := 2

/-- Constant from the source: default shard count used when the old
index's settings are unavailable. -/
def DEFAULT_NUM_SHARDS : Nat := 5

/-- The alias name, `settings.ES_INDEXES['webapp']`. -/
def ALIAS : String := "webapp"

/-- The empty string (used where Python passes or compares with ''). -/
def emptyStr : String := ""

/-- Settings key `number_of_replicas`. -/
def kNumReplicas : String := "number_of_replicas"

/-- Settings key `number_of_shards`. -/
def kNumShards : String := "number_of_shards"

/-- Settings key `refresh_interval`. -/
def kRefreshInterval : String := "refresh_interval"

/-- Settings key `store.compress.tv`. -/
def kCompressTv : String := "store.compress.tv"

/-- Settings key `store.compress.stored`. -/
def kCompressStored : String := "store.compress.stored"

/-- The disabled refresh interval value written at index creation. -/
def sMinusOne : String := "-1"

/-- The refresh interval value written at cutover. -/
def sFiveSec : String := "5s"

/-- The health status the create step waits for. -/
def sGreen : String := "green"

/-- Message of the CommandError raised outside Marketplace settings. -/
def msgNotMarketplace : String :=
  "This command affects only marketplace and should be run under Marketplace settings."

/-- Message of the CommandError raised when an indexation is already
occurring and `--force` was not given. -/
def msgConcurrent : String :=
  "Indexation already occuring - use --force to bypass"

/-- Message of the CommandError raised when the new index name already
exists in the store. -/
def msgAlreadyExists (name : String) : String :=
  "New index [" ++ name ++ "] already exists"

/-- A value stored under a settings key. -/
inductive SVal where
  | nat (n : Nat)
  | str (s : String)
  | bool (b : Bool)
  deriving DecidableEq

/-- A settings dictionary, as an association list. -/
abbrev SettingsDict := List (String × SVal)

/-- Python `d.get(k, dflt)`. -/
def dictGet (d : SettingsDict) (k : String) (dflt : SVal) : SVal :=
  match d.find? (fun p => p.1 == k) with
  | some p => p.2
  | none => dflt

/-- Insert or overwrite one key of a settings dictionary. -/
def dictInsert (d : SettingsDict) (k : String) (v : SVal) : SettingsDict :=
  (d.filter (fun p => p.1 != k)) ++ [(k, v)]

/-- Merge an update dictionary into an existing one (ES update_settings). -/
def mergeSettings (d upd : SettingsDict) : SettingsDict :=
  upd.foldl (fun acc p => dictInsert acc p.1 p.2) d

/-- One action of an `update_aliases` request. -/
inductive AliasAction where
  | add (index : String) (aliasName : String)
  | remove (index : String) (aliasName : String)
  deriving DecidableEq

/-- An administrative call issued to the store or the flag database. -/
inductive Call where
  | readAliases
  | readSettings (index : String)
  | dbCreateRecord (newIndex : String) (oldIndex : Option String)
      (aliasName : String) (startDate : Nat)
  | dbDeleteAll
  | createIndex (index : String) (settings : SettingsDict)
  | healthWait (index : String) (waitForStatus : String)
      (waitForRelocatingShards : Nat)
  | bulkIndex (index : String) (docs : List Nat)
  | optimize (index : String)
  | updateSettings (index : String) (settings : SettingsDict)
  | updateAliases (actions : List AliasAction)
  | deleteIndex (index : String)
  deriving DecidableEq

/-- An error surfaced by the command or one of its tasks. -/
inductive Err where
  | commandError (msg : String)
  | httpNotFound
  | healthTimeout
  | transportBulk
  | transportOptimize
  | transportUpdateSettings
  | transportUpdateAliases
  deriving DecidableEq

/-- Observable state of the Elasticsearch store, plus the boolean
outcomes of the externally-decided calls (health wait, transports). -/
structure Store where
  indices : List String
  aliased : List String
  settingsOf : List (String × SettingsDict)
  healthOk : Bool
  bulkOk : Bool
  optimizeOk : Bool
  updSettingsOk : Bool
  updAliasesOk : Bool
  deriving DecidableEq

/-- A persisted `Reindexing` flag record. -/
structure Reindexing where
  new_index : String
  old_index : Option String
  aliasName : String
  start_date : Nat
  deriving DecidableEq

/-- The world a run acts on: the store and the flag records. -/
structure World where
  store : Store
  records : List Reindexing
  deriving DecidableEq

/-- Python truthiness of an optional string (`if old_index:`). -/
def pyTruthy : Option String → Bool
  | none => false
  | some s => s != emptyStr

/-- Modelled from the spec: `lib.es.utils.database_flagged`
(`isRebuildInProgress`), an O(1) existence check on the flag records
(the module `lib/es/utils.py` itself is not part of the sources). -/
def database_flagged (w : World) : Bool := !w.records.isEmpty

/-- Modelled from the spec: `amo.utils.timestamp_index` derives the
new index name from the alias (plus optional prefix) and the current
timestamp (the module `amo/utils.py` itself is not part of the
sources). -/
def timestamp_index (index : String) (now : Nat) : String :=
  index ++ "-" ++ toString now

/-- Modelled from the spec: `amo.utils.chunked` splits a sequence into
consecutive fixed-size batches (the module `amo/utils.py` itself is not
part of the sources).  A zero batch size yields no batches; the
workflow only ever uses size 100. -/
def chunked : List α → Nat → List (List α)
  | [], _ => []
  | _ :: _, 0 => []
  | x :: xs, n + 1 =>
    ((x :: xs).take (n + 1)) :: chunked ((x :: xs).drop (n + 1)) (n + 1)
termination_by xs _ => xs.length
decreasing_by
  simp only [List.length_drop, List.length_cons]
  omega

/-- The task `delete_index`: calls `ES.delete_index(old_index)` with no
error handling, so a missing index surfaces the store's NotFound
error. -/
def delete_index (old_index : String) (w : World) :
    World × List Call × Option Err :=
  if old_index ∈ w.store.indices then
    ({ w with store := { w.store with
        indices := w.store.indices.filter (fun i => i != old_index),
        aliased := w.store.aliased.filter (fun i => i != old_index),
        settingsOf := w.store.settingsOf.filter (fun p => p.1 != old_index) } },
      [Call.deleteIndex old_index], none)
  else
    (w, [Call.deleteIndex old_index], some Err.httpNotFound)

/-- The task `create_index`: creates the index with the given settings
(raising a CommandError when the name already exists) and then waits
for green health with zero relocating shards; the bounded wait raises
when exceeded. -/
def create_index (new_index : String) (aliasName : String)
    (settings : SettingsDict) (w : World) : World × List Call × Option Err :=
  if new_index ∈ w.store.indices then
    (w, [Call.createIndex new_index settings],
      some (Err.commandError (msgAlreadyExists new_index)))
  else
    let w1 : World := { w with store := { w.store with
        indices := w.store.indices ++ [new_index],
        settingsOf := w.store.settingsOf ++ [(new_index, settings)] } }
    if w.store.healthOk then
      (w1, [Call.createIndex new_index settings,
            Call.healthWait new_index sGreen 0], none)
    else
      (w1, [Call.createIndex new_index settings,
            Call.healthWait new_index sGreen 0], some Err.healthTimeout)

/-- `index_webapp`: resolves a chunk of ids against the catalog (ids
absent from the database are skipped by the `id__in` filter) and
submits one bulk call; the `index` keyword defaults to `ALIAS` through
Python `or`. -/
def index_webapp (present : Nat → Bool) (ids : List Nat)
    (index : Option String) : Call :=
  let i := match index with
    | some s => if s != emptyStr then s else ALIAS
    | none => ALIAS
  Call.bulkIndex i (ids.filter present)

/-- The task `run_indexing`: chunks the indexable ids by 100 and issues
one bulk submission per chunk; a transport failure aborts at the first
submission. -/
def run_indexing (index : String) (present : Nat → Bool) (ids : List Nat)
    (w : World) : World × List Call × Option Err :=
  let calls := (chunked ids 100).map (fun c => index_webapp present c (some index))
  if w.store.bulkOk then (w, calls, none)
  else if calls.isEmpty then (w, [], none)
  else (w, calls.take 1, some Err.transportBulk)

/-- The task `flag_database`: creates the `Reindexing` record. -/
def flag_database (new_index : String) (old_index : Option String)
    (aliasName : String) (now : Nat) (w : World) :
    World × List Call × Option Err :=
  ({ w with records := w.records ++ [⟨new_index, old_index, aliasName, now⟩] },
    [Call.dbCreateRecord new_index old_index aliasName now], none)

/-- The task `unflag_database`: `Reindexing.objects.all().delete()`,
removing every flag record unconditionally. -/
def unflag_database (w : World) : World × List Call × Option Err :=
  ({ w with records := [] }, [Call.dbDeleteAll], none)

/-- The task `output_summary`: reads the current alias configuration. -/
def output_summary (w : World) : World × List Call × Option Err :=
  (w, [Call.readAliases], none)

/-- Apply one alias action to the set of indices bound to the alias. -/
def applyAliasAction (aliased : List String) : AliasAction → List String
  | AliasAction.add i _ => if i ∈ aliased then aliased else aliased ++ [i]
  | AliasAction.remove i _ => aliased.filter (fun x => x != i)

/-- Merge an update into the settings recorded for one index. -/
def storeUpdateSettings (s : Store) (index : String) (upd : SettingsDict) :
    Store :=
  let f := fun (p : String × SettingsDict) =>
    if p.1 == index then (p.1, mergeSettings p.2 upd) else p
  { s with settingsOf := s.settingsOf.map f }

/-- The task `update_alias`: optimize, update the settings of the new
index, then submit the alias switch as one `update_aliases` request
whose action list is the add action followed by a remove action when an
old index existed. -/
def update_alias (new_index : String) (old_index : Option String)
    (aliasName : String) (settings : SettingsDict) (w : World) :
    World × List Call × Option Err :=
  if !w.store.optimizeOk then
    (w, [Call.optimize new_index], some Err.transportOptimize)
  else if !w.store.updSettingsOk then
    (w, [Call.optimize new_index, Call.updateSettings new_index settings],
      some Err.transportUpdateSettings)
  else
    let w1 : World := { w with store := storeUpdateSettings w.store new_index settings }
    let actions := [AliasAction.add new_index aliasName] ++
      (if pyTruthy old_index then
        [AliasAction.remove (old_index.getD emptyStr) aliasName] else [])
    if !w.store.updAliasesOk then
      (w1, [Call.optimize new_index, Call.updateSettings new_index settings,
            Call.updateAliases actions], some Err.transportUpdateAliases)
    else
      ({ w1 with store := { w1.store with
          aliased := actions.foldl applyAliasAction w1.store.aliased } },
        [Call.optimize new_index, Call.updateSettings new_index settings,
         Call.updateAliases actions], none)

/-- The `celery_tasktree` chain executor: each task runs only after its
parent succeeded; the first failure aborts the remaining chain. -/
def runSteps : List (World → World × List Call × Option Err) → World →
    World × List Call × Option Err
  | [], w => (w, [], none)
  | s :: rest, w =>
    let r := s w
    match r.2.2 with
    | some e => (r.1, r.2.1, some e)
    | none =>
      let r2 := runSteps rest r.1
      (r2.1, r.2.1 ++ r2.2.1, r2.2.2)

/-- The old index determined at preflight: the first index name
returned by `ES.aliases(ALIAS).keys()`, or none. -/
def preflightOld (w : World) : Option String := w.store.aliased.head?

/-- The old index's settings as captured by `Command.handle`: the
recorded dictionary when the old index exists, empty on the NotFound
path or when no old index was found. -/
def capturedSettings (w : World) (old_index : Option String) : SettingsDict :=
  if pyTruthy old_index then
    if old_index.getD emptyStr ∈ w.store.indices then
      match w.store.settingsOf.find? (fun p => p.1 == old_index.getD emptyStr) with
      | some p => p.2
      | none => []
    else []
  else []

/-- `Command.handle`: the guard checks, the preflight reads, and the
ordered task chain, exactly as the source builds them. -/
def handle (marketplace force : Bool) (pfx : String) (now : Nat)
    (present : Nat → Bool) (ids : List Nat) (w : World) :
    World × List Call × Option Err :=
  if !marketplace then
    (w, [], some (Err.commandError msgNotMarketplace))
  else if database_flagged w && !force then
    (w, [], some (Err.commandError msgConcurrent))
  else
    let pre := if force then unflag_database w else (w, [], none)
    let w0 := pre.1
    let t0 := pre.2.1
    let old_index := preflightOld w0
    let new_index := timestamp_index (pfx ++ ALIAS) now
    let tset : List Call :=
      if pyTruthy old_index then [Call.readSettings (old_index.getD emptyStr)]
      else []
    let s := capturedSettings w0 old_index
    let num_replicas := dictGet s kNumReplicas (SVal.nat DEFAULT_NUM_REPLICAS)
    let num_shards := dictGet s kNumShards (SVal.nat DEFAULT_NUM_SHARDS)
    let createSettings : SettingsDict :=
      [(kNumReplicas, SVal.nat 0), (kNumShards, num_shards),
       (kCompressTv, SVal.bool true), (kCompressStored, SVal.bool true),
       (kRefreshInterval, SVal.str sMinusOne)]
    let cutoverSettings : SettingsDict :=
      [(kNumReplicas, num_replicas), (kRefreshInterval, SVal.str sFiveSec)]
    let steps : List (World → World × List Call × Option Err) :=
      [flag_database new_index old_index ALIAS now,
       create_index new_index ALIAS createSettings,
       run_indexing new_index present ids,
       update_alias new_index old_index ALIAS cutoverSettings,
       unflag_database] ++
      (if pyTruthy old_index then [delete_index (old_index.getD emptyStr)]
       else []) ++
      [output_summary]
    let r := runSteps steps w0
    (r.1, t0 ++ [Call.readAliases] ++ tset ++ r.2.1, r.2.2)

def successTrace (force : Bool) (pfx : String) (now : Nat)
    (present : Nat → Bool) (ids : List Nat) (w : World) : List Call :=
  let old := preflightOld w
  let new := timestamp_index (pfx ++ ALIAS) now
  let s := capturedSettings w old
  let cS : SettingsDict :=
    [(kNumReplicas, SVal.nat 0),
     (kNumShards, dictGet s kNumShards (SVal.nat DEFAULT_NUM_SHARDS)),
     (kCompressTv, SVal.bool true), (kCompressStored, SVal.bool true),
     (kRefreshInterval, SVal.str sMinusOne)]
  let uS : SettingsDict :=
    [(kNumReplicas, dictGet s kNumReplicas (SVal.nat DEFAULT_NUM_REPLICAS)),
     (kRefreshInterval, SVal.str sFiveSec)]
  let actions := [AliasAction.add new ALIAS] ++
    (if pyTruthy old then [AliasAction.remove (old.getD emptyStr) ALIAS] else [])
  (if force then [Call.dbDeleteAll] else []) ++ [Call.readAliases] ++
    (if pyTruthy old then [Call.readSettings (old.getD emptyStr)] else []) ++
    [Call.dbCreateRecord new old ALIAS now,
     Call.createIndex new cS, Call.healthWait new sGreen 0] ++
    (chunked ids 100).map (fun c => Call.bulkIndex new (c.filter present)) ++
    [Call.optimize new, Call.updateSettings new uS,
     Call.updateAliases actions, Call.dbDeleteAll] ++
    (if pyTruthy old then [Call.deleteIndex (old.getD emptyStr)] else []) ++
    [Call.readAliases]

def isDbDeleteAll : Call → Bool
  | Call.dbDeleteAll => true
  | _ => false

def isCreateIndexCall : Call → Bool
  | Call.createIndex _ _ => true
  | _ => false

def isUpdateSettingsCall : Call → Bool
  | Call.updateSettings _ _ => true
  | _ => false

def isUpdateAliasesCall : Call → Bool
  | Call.updateAliases _ => true
  | _ => false

def lookupSetting (s : Store) (index k : String) : Option SVal :=
  match s.settingsOf.find? (fun p => p.1 == index) with
  | some p =>
    match p.2.find? (fun q => q.1 == k) with
    | some q => some q.2
    | none => none
  | none => none

/-- A catalog predicate marking every identifier as present. -/
def presTrue : Nat → Bool := fun _ => true

/-- Example old index name used in concrete runs. -/
def oldIdx : String := "webapp_old"

/-- A second example index name bound to the alias. -/
def oldIdx2 : String := "webapp_old2"

/-- An example refresh interval carried by the old index. -/
def sThirty : String := "30s"

/-- A store with no indices where every external call succeeds. -/
def emptyStore : Store :=
  { indices := [], aliased := [], settingsOf := [], healthOk := true,
    bulkOk := true, optimizeOk := true, updSettingsOk := true,
    updAliasesOk := true }

/-- A world with an empty store and no flag records. -/
def wEmptyStore : World := { store := emptyStore, records := [] }

/-- A world whose store already contains an index named `ALIAS`. -/
def wAliasIdx : World :=
  { store := { emptyStore with indices := [ALIAS] }, records := [] }

/-- A world whose health wait always times out. -/
def wNoHealth : World :=
  { store := { emptyStore with healthOk := false }, records := [] }

/-- A world with one old index bound to the alias, carrying replica,
shard and refresh-interval settings. -/
def wOld : World :=
  { store := { emptyStore with
      indices := [oldIdx], aliased := [oldIdx],
      settingsOf := [(oldIdx,
        [(kNumReplicas, SVal.nat 3), (kNumShards, SVal.nat 4),
         (kRefreshInterval, SVal.str sThirty)])] },
    records := [] }

/-- A world whose alias is bound to two indices at once. -/
def wTwoBound : World :=
  { store := { emptyStore with
      indices := [oldIdx, oldIdx2], aliased := [oldIdx, oldIdx2] },
    records := [] }

/-- A world with a leftover rebuild flag record. -/
def wFlagged : World :=
  { store := emptyStore, records := [⟨ALIAS, none, ALIAS, 0⟩] }


/-- Predicate selecting the alias-configuration read calls. -/
def isReadAliases : Call → Bool
  | Call.readAliases => true
  | _ => false

/-- A world whose alias is bound to an index missing from the store. -/
def wGhost : World :=
  { store := { emptyStore with aliased := [oldIdx] }, records := [] }

theorem chunked_nil (n : Nat) : chunked ([] : List α) n = [] := by
  simp [chunked]

theorem chunked_length : ∀ (xs : List α) (n : Nat),
    (chunked xs (n + 1)).length = (xs.length + n) / (n + 1)
  | [], n => by
    rw [chunked_nil]
    simp only [List.length_nil, Nat.zero_add]
    exact (Nat.div_eq_of_lt (by omega)).symm
  | x :: xs, n => by
    rw [chunked]
    have ih := chunked_length ((x :: xs).drop (n + 1)) n
    simp only [List.length_cons, List.length_drop] at ih ⊢
    rw [ih]
    have hL : xs.length + 1 + n = (xs.length + 1 - 1) + (n + 1) := by omega
    rw [hL, Nat.add_div_right _ (by omega)]
    rcases le_or_lt (xs.length + 1) (n + 1) with h | h
    · have h1 : xs.length + 1 - (n + 1) = 0 := by omega
      rw [h1]
      rw [Nat.div_eq_of_lt (by omega), Nat.div_eq_of_lt (by omega)]
    · have h1 : xs.length + 1 - (n + 1) + n = xs.length + 1 - 1 := by omega
      rw [h1]
termination_by xs _ => xs.length
decreasing_by
  simp only [List.length_drop, List.length_cons]
  omega

theorem chunked_mem_length : ∀ (xs : List α) (n : Nat) (c : List α),
    c ∈ chunked xs n → c.length ≤ n
  | [], n, c => by rw [chunked_nil]; intro h; cases h
  | _ :: _, 0, c => by simp [chunked]
  | x :: xs, n + 1, c => by
    rw [chunked]
    intro h
    rcases List.mem_cons.mp h with h1 | h2
    · subst h1
      simp only [List.length_take]
      omega
    · exact chunked_mem_length _ _ _ h2
termination_by xs _ _ => xs.length
decreasing_by
  simp only [List.length_drop, List.length_cons]
  omega

theorem timestamp_index_ne (s : String) (n : Nat) :
    (timestamp_index s n != emptyStr) = true := by
  simp only [timestamp_index, emptyStr, bne_iff_ne, ne_eq]
  intro h
  have h2 := congrArg String.data h
  have h3 : ("-" : String).data = [Char.ofNat 45] := by decide
  have h4 : ("" : String).data = [] := rfl
  rw [String.data_append, String.data_append, h3, h4] at h2
  simp at h2

theorem handle_success (force : Bool) (pfx : String) (now : Nat)
    (present : Nat → Bool) (ids : List Nat) (w : World)
    (hnc : database_flagged w = false ∨ force = true)
    (hnew : timestamp_index (pfx ++ ALIAS) now ∉ w.store.indices)
    (hh : w.store.healthOk = true) (hb : w.store.bulkOk = true)
    (ho : w.store.optimizeOk = true) (hus : w.store.updSettingsOk = true)
    (hua : w.store.updAliasesOk = true)
    (hold : ∀ o, preflightOld w = some o → o ≠ emptyStr → o ∈ w.store.indices) :
    (handle true force pfx now present ids w).2.2 = none ∧
    (handle true force pfx now present ids w).2.1 =
      successTrace force pfx now present ids w ∧
    (handle true force pfx now present ids w).1.records = [] := by
  rcases hal : w.store.aliased with _ | ⟨o, rest⟩
  · rcases force with _ | _
    · rcases hnc with hnc | hnc
      · refine ⟨?_, ?_, ?_⟩ <;>
          simp [handle, successTrace, runSteps, flag_database, create_index,
            run_indexing, update_alias, unflag_database, delete_index,
            output_summary, preflightOld, capturedSettings, pyTruthy,
            index_webapp, timestamp_index_ne, hal, hnc, hnew, hh, hb, ho,
            hus, hua, storeUpdateSettings, applyAliasAction]
      · cases hnc
    · refine ⟨?_, ?_, ?_⟩ <;>
        simp [handle, successTrace, runSteps, flag_database, create_index,
          run_indexing, update_alias, unflag_database, delete_index,
          output_summary, preflightOld, capturedSettings, pyTruthy,
          index_webapp, timestamp_index_ne, hal, hnew, hh, hb, ho,
          hus, hua, storeUpdateSettings, applyAliasAction, database_flagged]
  · by_cases hoe : o = emptyStr
    · subst hoe
      rcases force with _ | _
      · rcases hnc with hnc | hnc
        · refine ⟨?_, ?_, ?_⟩ <;>
            simp [handle, successTrace, runSteps, flag_database, create_index,
              run_indexing, update_alias, unflag_database, delete_index,
              output_summary, preflightOld, capturedSettings, pyTruthy,
              index_webapp, timestamp_index_ne, hal, hnc, hnew, hh, hb, ho,
              hus, hua, storeUpdateSettings, applyAliasAction]
        · cases hnc
      · refine ⟨?_, ?_, ?_⟩ <;>
          simp [handle, successTrace, runSteps, flag_database, create_index,
            run_indexing, update_alias, unflag_database, delete_index,
            output_summary, preflightOld, capturedSettings, pyTruthy,
            index_webapp, timestamp_index_ne, hal, hnew, hh, hb, ho,
            hus, hua, storeUpdateSettings, applyAliasAction, database_flagged]
    · have hoi : o ∈ w.store.indices := by
        refine hold o ?_ hoe
        simp [preflightOld, hal]
      rcases force with _ | _
      · rcases hnc with hnc | hnc
        · refine ⟨?_, ?_, ?_⟩ <;>
            simp [handle, successTrace, runSteps, flag_database, create_index,
              run_indexing, update_alias, unflag_database, delete_index,
              output_summary, preflightOld, capturedSettings, pyTruthy,
              index_webapp, timestamp_index_ne, hal, hnc, hnew, hh, hb, ho,
              hus, hua, hoe, hoi, storeUpdateSettings, applyAliasAction]
        · cases hnc
      · refine ⟨?_, ?_, ?_⟩ <;>
          simp [handle, successTrace, runSteps, flag_database, create_index,
            run_indexing, update_alias, unflag_database, delete_index,
            output_summary, preflightOld, capturedSettings, pyTruthy,
            index_webapp, timestamp_index_ne, hal, hnew, hh, hb, ho,
            hus, hua, hoe, hoi, storeUpdateSettings, applyAliasAction,
            database_flagged]

theorem create_index_records (n a : String) (s : SettingsDict) (w : World) :
    (create_index n a s w).1.records = w.records := by
  by_cases h1 : n ∈ w.store.indices <;> by_cases h2 : w.store.healthOk = true <;>
    simp [create_index, h1, h2]

theorem create_index_calls (n a : String) (s : SettingsDict) (w : World) :
    ∀ c ∈ (create_index n a s w).2.1,
      c = Call.createIndex n s ∨ c = Call.healthWait n sGreen 0 := by
  by_cases h1 : n ∈ w.store.indices <;> by_cases h2 : w.store.healthOk = true <;>
    simp [create_index, h1, h2]

theorem create_index_err (n a : String) (s : SettingsDict) (w : World) :
    (create_index n a s w).2.2 = none ∨
    (create_index n a s w).2.2 = some (Err.commandError (msgAlreadyExists n)) ∨
    (create_index n a s w).2.2 = some Err.healthTimeout := by
  by_cases h1 : n ∈ w.store.indices <;> by_cases h2 : w.store.healthOk = true <;>
    simp [create_index, h1, h2]

theorem run_indexing_world (i : String) (p : Nat → Bool) (ids : List Nat)
    (w : World) : (run_indexing i p ids w).1 = w := by
  by_cases h1 : w.store.bulkOk = true <;>
    simp [run_indexing, h1] <;> split <;> rfl

theorem run_indexing_calls (i : String) (p : Nat → Bool) (ids : List Nat)
    (w : World) : ∀ c ∈ (run_indexing i p ids w).2.1,
      ∃ j docs, c = Call.bulkIndex j docs := by
  have hmap : ∀ x ∈ (chunked ids 100).map (fun ch => index_webapp p ch (some i)),
      ∃ j docs, x = Call.bulkIndex j docs := by
    intro x hx
    obtain ⟨ch, _, rfl⟩ := List.mem_map.mp hx
    exact ⟨_, _, rfl⟩
  intro c hc
  by_cases h1 : w.store.bulkOk = true
  · simp only [run_indexing, h1, if_true] at hc
    exact hmap c hc
  · simp only [run_indexing, h1] at hc
    rcases h2 : ((chunked ids 100).map (fun ch => index_webapp p ch (some i))).isEmpty with _ | _
    · simp only [h2, Bool.false_eq_true, if_false] at hc
      exact hmap c (List.take_subset _ _ hc)
    · simp only [h2, if_true] at hc
      cases hc

theorem run_indexing_err (i : String) (p : Nat → Bool) (ids : List Nat)
    (w : World) : (run_indexing i p ids w).2.2 = none ∨
      (run_indexing i p ids w).2.2 = some Err.transportBulk := by
  by_cases h1 : w.store.bulkOk = true <;> simp [run_indexing, h1] <;> split <;> simp

theorem update_alias_records (n : String) (o : Option String) (a : String)
    (s : SettingsDict) (w : World) :
    (update_alias n o a s w).1.records = w.records := by
  by_cases h1 : w.store.optimizeOk = true <;>
    by_cases h2 : w.store.updSettingsOk = true <;>
    by_cases h3 : w.store.updAliasesOk = true <;>
    simp [update_alias, storeUpdateSettings, h1, h2, h3]

theorem update_alias_calls (n : String) (o : Option String) (a : String)
    (s : SettingsDict) (w : World) :
    ∀ c ∈ (update_alias n o a s w).2.1,
      c = Call.optimize n ∨ c = Call.updateSettings n s ∨
      ∃ acts, c = Call.updateAliases acts := by
  by_cases h1 : w.store.optimizeOk = true <;>
    by_cases h2 : w.store.updSettingsOk = true <;>
    by_cases h3 : w.store.updAliasesOk = true <;>
    simp [update_alias, storeUpdateSettings, h1, h2, h3]

theorem update_alias_err (n : String) (o : Option String) (a : String)
    (s : SettingsDict) (w : World) :
    (update_alias n o a s w).2.2 = none ∨
    (update_alias n o a s w).2.2 = some Err.transportOptimize ∨
    (update_alias n o a s w).2.2 = some Err.transportUpdateSettings ∨
    (update_alias n o a s w).2.2 = some Err.transportUpdateAliases := by
  by_cases h1 : w.store.optimizeOk = true <;>
    by_cases h2 : w.store.updSettingsOk = true <;>
    by_cases h3 : w.store.updAliasesOk = true <;>
    simp [update_alias, storeUpdateSettings, h1, h2, h3]

theorem delete_index_err (o : String) (w : World) :
    (delete_index o w).2.2 = none ∨
    (delete_index o w).2.2 = some Err.httpNotFound := by
  by_cases h1 : o ∈ w.store.indices <;> simp [delete_index, h1]

theorem runSteps_append_fail
    (l1 l2 : List (World → World × List Call × Option Err)) (w : World)
    (e : Err) (h : (runSteps l1 w).2.2 = some e) :
    runSteps (l1 ++ l2) w = runSteps l1 w := by
  induction l1 generalizing w with
  | nil => simp [runSteps] at h
  | cons s t ih =>
    simp only [List.cons_append, runSteps]
    rcases hs : (s w).2.2 with _ | e1
    · simp only [runSteps, hs, List.append_eq] at h ⊢
      rw [ih _ h]
    · simp only [runSteps, hs] at h ⊢

theorem runSteps_append_ok
    (l1 l2 : List (World → World × List Call × Option Err)) (w : World)
    (h : (runSteps l1 w).2.2 = none) :
    runSteps (l1 ++ l2) w =
      ((runSteps l2 (runSteps l1 w).1).1,
       (runSteps l1 w).2.1 ++ (runSteps l2 (runSteps l1 w).1).2.1,
       (runSteps l2 (runSteps l1 w).1).2.2) := by
  induction l1 generalizing w with
  | nil => simp [runSteps]
  | cons s t ih =>
    simp only [List.cons_append, runSteps]
    rcases hs : (s w).2.2 with _ | e1
    · simp only [runSteps, hs, List.append_eq] at h ⊢
      rw [ih _ h]
      simp
    · rw [runSteps, hs] at h
      exact Option.noConfusion h

theorem create_index_countDb (n a : String) (s : SettingsDict) (w : World) :
    (create_index n a s w).2.1.countP isDbDeleteAll = 0 := by
  rw [List.countP_eq_zero]
  intro c hc
  rcases create_index_calls n a s w c hc with h | h <;> subst h <;>
    simp [isDbDeleteAll]

theorem create_index_noDelete (n a : String) (s : SettingsDict) (w : World)
    (m : String) : Call.deleteIndex m ∉ (create_index n a s w).2.1 := by
  intro hm
  rcases create_index_calls n a s w _ hm with h | h <;> exact Call.noConfusion h

theorem create_index_noBulk (n a : String) (s : SettingsDict) (w : World)
    (j : String) (docs : List Nat) :
    Call.bulkIndex j docs ∉ (create_index n a s w).2.1 := by
  intro hm
  rcases create_index_calls n a s w _ hm with h | h <;> exact Call.noConfusion h

theorem run_indexing_countDb (i : String) (p : Nat → Bool) (ids : List Nat)
    (w : World) : (run_indexing i p ids w).2.1.countP isDbDeleteAll = 0 := by
  rw [List.countP_eq_zero]
  intro c hc
  obtain ⟨j, docs, rfl⟩ := run_indexing_calls i p ids w c hc
  simp [isDbDeleteAll]

theorem run_indexing_noDelete (i : String) (p : Nat → Bool) (ids : List Nat)
    (w : World) (m : String) :
    Call.deleteIndex m ∉ (run_indexing i p ids w).2.1 := by
  intro hm
  obtain ⟨j, docs, h⟩ := run_indexing_calls i p ids w _ hm
  exact Call.noConfusion h

theorem update_alias_countDb (n : String) (o : Option String) (a : String)
    (s : SettingsDict) (w : World) :
    (update_alias n o a s w).2.1.countP isDbDeleteAll = 0 := by
  rw [List.countP_eq_zero]
  intro c hc
  rcases update_alias_calls n o a s w c hc with h | h | ⟨acts, h⟩ <;> subst h <;>
    simp [isDbDeleteAll]

theorem update_alias_noDelete (n : String) (o : Option String) (a : String)
    (s : SettingsDict) (w : World) (m : String) :
    Call.deleteIndex m ∉ (update_alias n o a s w).2.1 := by
  intro hm
  rcases update_alias_calls n o a s w _ hm with h | h | ⟨acts, h⟩ <;>
    exact Call.noConfusion h

theorem firstFour_fail (new : String) (old : Option String) (now : Nat)
    (present : Nat → Bool) (ids : List Nat) (cS uS : SettingsDict) (w : World)
    (e : Err)
    (h : (runSteps [flag_database new old ALIAS now,
                    create_index new ALIAS cS,
                    run_indexing new present ids,
                    update_alias new old ALIAS uS] w).2.2 = some e) :
    (runSteps [flag_database new old ALIAS now,
               create_index new ALIAS cS,
               run_indexing new present ids,
               update_alias new old ALIAS uS] w).2.1.countP isDbDeleteAll = 0 ∧
    (∀ m, Call.deleteIndex m ∉
      (runSteps [flag_database new old ALIAS now,
                 create_index new ALIAS cS,
                 run_indexing new present ids,
                 update_alias new old ALIAS uS] w).2.1) ∧
    (runSteps [flag_database new old ALIAS now,
               create_index new ALIAS cS,
               run_indexing new present ids,
               update_alias new old ALIAS uS] w).1.records =
      w.records ++ [⟨new, old, ALIAS, now⟩] ∧
    (e = Err.healthTimeout → ∀ j docs, Call.bulkIndex j docs ∉
      (runSteps [flag_database new old ALIAS now,
                 create_index new ALIAS cS,
                 run_indexing new present ids,
                 update_alias new old ALIAS uS] w).2.1) := by
  set w1 : World :=
    { w with records := w.records ++ [⟨new, old, ALIAS, now⟩] } with hw1
  have hflag : flag_database new old ALIAS now w =
      (w1, [Call.dbCreateRecord new old ALIAS now], none) := rfl
  simp only [runSteps, hflag] at h ⊢
  rcases hc : (create_index new ALIAS cS w1).2.2 with _ | e1
  · simp only [hc] at h ⊢
    rcases hr : (run_indexing new present ids (create_index new ALIAS cS w1).1).2.2
        with _ | e2
    · simp only [hr] at h ⊢
      rcases hu : (update_alias new old ALIAS uS
          (run_indexing new present ids (create_index new ALIAS cS w1).1).1).2.2
          with _ | e3
      · simp only [hu] at h
        exact Option.noConfusion h
      · simp only [hu] at h ⊢
        have hee := Option.some.inj h
        refine ⟨?_, ?_, ?_, ?_⟩
        · simp [List.countP_append, List.countP_cons, isDbDeleteAll,
            create_index_countDb, run_indexing_countDb, update_alias_countDb]
        · intro m
          simp [List.mem_append,
            create_index_noDelete new ALIAS cS w1 m,
            run_indexing_noDelete new present ids (create_index new ALIAS cS w1).1 m,
            update_alias_noDelete new old ALIAS uS
              (run_indexing new present ids (create_index new ALIAS cS w1).1).1 m]
        · rw [update_alias_records, run_indexing_world, create_index_records]
        · intro he
          exfalso
          rcases update_alias_err new old ALIAS uS
              (run_indexing new present ids (create_index new ALIAS cS w1).1).1
            with h4 | h4 | h4 | h4 <;> rw [hu] at h4 <;> simp [hee, he] at h4
    · simp only [hr] at h ⊢
      have hee := Option.some.inj h
      refine ⟨?_, ?_, ?_, ?_⟩
      · simp [List.countP_append, List.countP_cons, isDbDeleteAll,
          create_index_countDb, run_indexing_countDb]
      · intro m
        simp [List.mem_append,
          create_index_noDelete new ALIAS cS w1 m,
          run_indexing_noDelete new present ids (create_index new ALIAS cS w1).1 m]
      · rw [run_indexing_world, create_index_records]
      · intro he
        exfalso
        rcases run_indexing_err new present ids (create_index new ALIAS cS w1).1
          with h4 | h4 <;> rw [hr] at h4 <;> simp [hee, he] at h4
  · simp only [hc] at h ⊢
    have hee := Option.some.inj h
    refine ⟨?_, ?_, ?_, ?_⟩
    · simp [List.countP_append, List.countP_cons, isDbDeleteAll,
        create_index_countDb]
    · intro m
      simp [List.mem_append, create_index_noDelete new ALIAS cS w1 m]
    · rw [create_index_records]
    · intro he
      intro j docs
      simp [List.mem_append, create_index_noBulk new ALIAS cS w1 j docs]

theorem restSteps_err (b : Bool) (o : String) (w : World) :
    (runSteps ([unflag_database] ++ (if b then [delete_index o] else []) ++
      [output_summary]) w).2.2 = none ∨
    (runSteps ([unflag_database] ++ (if b then [delete_index o] else []) ++
      [output_summary]) w).2.2 = some Err.httpNotFound := by
  rcases b with _ | _
  · simp [runSteps, unflag_database, output_summary]
  · rcases delete_index_err o ({ w with records := [] }) with h | h <;>
      simp [runSteps, unflag_database, output_summary, h]

theorem plan_fail (new : String) (old : Option String) (now : Nat)
    (present : Nat → Bool) (ids : List Nat) (cS uS : SettingsDict)
    (b : Bool) (o : String) (w : World) (e : Err)
    (hnf : e ≠ Err.httpNotFound)
    (h : (runSteps ([flag_database new old ALIAS now,
                     create_index new ALIAS cS,
                     run_indexing new present ids,
                     update_alias new old ALIAS uS,
                     unflag_database] ++
                    (if b then [delete_index o] else []) ++
                    [output_summary]) w).2.2 = some e) :
    (runSteps ([flag_database new old ALIAS now,
                create_index new ALIAS cS,
                run_indexing new present ids,
                update_alias new old ALIAS uS,
                unflag_database] ++
               (if b then [delete_index o] else []) ++
               [output_summary]) w).2.1.countP isDbDeleteAll = 0 ∧
    (∀ m, Call.deleteIndex m ∉
      (runSteps ([flag_database new old ALIAS now,
                  create_index new ALIAS cS,
                  run_indexing new present ids,
                  update_alias new old ALIAS uS,
                  unflag_database] ++
                 (if b then [delete_index o] else []) ++
                 [output_summary]) w).2.1) ∧
    (runSteps ([flag_database new old ALIAS now,
                create_index new ALIAS cS,
                run_indexing new present ids,
                update_alias new old ALIAS uS,
                unflag_database] ++
               (if b then [delete_index o] else []) ++
               [output_summary]) w).1.records =
      w.records ++ [⟨new, old, ALIAS, now⟩] ∧
    (e = Err.healthTimeout → ∀ j docs, Call.bulkIndex j docs ∉
      (runSteps ([flag_database new old ALIAS now,
                  create_index new ALIAS cS,
                  run_indexing new present ids,
                  update_alias new old ALIAS uS,
                  unflag_database] ++
                 (if b then [delete_index o] else []) ++
                 [output_summary]) w).2.1) := by
  rw [show ([flag_database new old ALIAS now,
             create_index new ALIAS cS,
             run_indexing new present ids,
             update_alias new old ALIAS uS,
             unflag_database] ++
            (if b then [delete_index o] else []) ++
            [output_summary]) =
      ([flag_database new old ALIAS now,
        create_index new ALIAS cS,
        run_indexing new present ids,
        update_alias new old ALIAS uS] ++
       ([unflag_database] ++ (if b then [delete_index o] else []) ++
        [output_summary])) from by simp] at h ⊢
  rcases h1 : (runSteps [flag_database new old ALIAS now,
                         create_index new ALIAS cS,
                         run_indexing new present ids,
                         update_alias new old ALIAS uS] w).2.2 with _ | e1
  · rw [runSteps_append_ok _ _ _ h1] at h
    rcases restSteps_err b o
        (runSteps [flag_database new old ALIAS now,
                   create_index new ALIAS cS,
                   run_indexing new present ids,
                   update_alias new old ALIAS uS] w).1 with h2 | h2 <;>
      rw [h2] at h
    · exact Option.noConfusion h
    · exact absurd (Option.some.inj h).symm hnf
  · rw [runSteps_append_fail _ _ _ _ h1] at h ⊢
    exact firstFour_fail new old now present ids cS uS w e h

theorem preflightOld_clear (w : World) :
    preflightOld { w with records := [] } = preflightOld w := rfl

theorem capturedSettings_clear (w : World) (o : Option String) :
    capturedSettings { w with records := [] } o = capturedSettings w o := rfl

theorem handle_fail (force : Bool) (pfx : String) (now : Nat)
    (present : Nat → Bool) (ids : List Nat) (w : World) (err : Err)
    (hnc : database_flagged w = false ∨ force = true)
    (herr : (handle true force pfx now present ids w).2.2 = some err)
    (hnf : err ≠ Err.httpNotFound) :
    (handle true force pfx now present ids w).2.1.countP isDbDeleteAll =
      (if force then 1 else 0) ∧
    (∀ m, Call.deleteIndex m ∉ (handle true force pfx now present ids w).2.1) ∧
    (handle true force pfx now present ids w).1.records =
      (if force then [] else w.records) ++
        [⟨timestamp_index (pfx ++ ALIAS) now, preflightOld w, ALIAS, now⟩] := by
  rcases force with _ | _
  · have hfl : database_flagged w = false := by
      rcases hnc with h | h
      · exact h
      · exact Bool.noConfusion h
    simp only [handle, hfl, Bool.not_true, Bool.not_false, Bool.and_true,
      Bool.and_false, Bool.false_and, Bool.true_and, if_true, if_false,
      ite_true, ite_false, Bool.false_eq_true, reduceIte] at herr ⊢
    obtain ⟨hcount, hdel, hrec, _⟩ :=
      plan_fail _ _ _ present ids _ _ _ _ _ err hnf herr
    refine ⟨?_, ?_, ?_⟩
    · rcases hpt : pyTruthy (preflightOld w) with _ | _ <;>
        simp [hpt, List.countP_append, List.countP_cons, isDbDeleteAll,
          hcount] <;> simp [hpt] at hcount <;> exact hcount
    · intro m
      rcases hpt : pyTruthy (preflightOld w) with _ | _ <;>
        have hdm := hdel m <;> simp [hpt] at hdm ⊢ <;> simp [hdm]
    · exact hrec
  · simp only [handle, Bool.not_true, Bool.not_false, Bool.and_true,
      Bool.and_false, Bool.false_and, Bool.true_and, if_true, if_false,
      ite_true, ite_false, Bool.false_eq_true, reduceIte, unflag_database,
      preflightOld_clear, capturedSettings_clear] at herr ⊢
    obtain ⟨hcount, hdel, hrec, _⟩ :=
      plan_fail _ _ _ present ids _ _ _ _ _ err hnf herr
    refine ⟨?_, ?_, ?_⟩
    · rcases hpt : pyTruthy (preflightOld w) with _ | _ <;>
        simp [hpt, List.countP_append, List.countP_cons, isDbDeleteAll,
          hcount] <;> simp [hpt] at hcount <;> exact hcount
    · intro m
      rcases hpt : pyTruthy (preflightOld w) with _ | _ <;>
        have hdm := hdel m <;> simp [hpt] at hdm ⊢ <;> simp [hdm]
    · rw [hrec]

theorem handle_health_no_bulk (force : Bool) (pfx : String) (now : Nat)
    (present : Nat → Bool) (ids : List Nat) (w : World)
    (hnc : database_flagged w = false ∨ force = true)
    (herr : (handle true force pfx now present ids w).2.2 =
      some Err.healthTimeout) :
    ∀ j docs, Call.bulkIndex j docs ∉
      (handle true force pfx now present ids w).2.1 := by
  rcases force with _ | _
  · have hfl : database_flagged w = false := by
      rcases hnc with h | h
      · exact h
      · exact Bool.noConfusion h
    simp only [handle, hfl, Bool.not_true, Bool.not_false, Bool.and_true,
      Bool.and_false, Bool.false_and, Bool.true_and, if_true, if_false,
      ite_true, ite_false, Bool.false_eq_true, reduceIte] at herr ⊢
    obtain ⟨_, _, _, hnb⟩ :=
      plan_fail _ _ _ present ids _ _ _ _ _ Err.healthTimeout
        (by simp) herr
    intro j docs
    have hb := hnb rfl j docs
    rcases hpt : pyTruthy (preflightOld w) with _ | _ <;>
      simp [hpt] at hb ⊢ <;> simp [hb]
  · simp only [handle, Bool.not_true, Bool.not_false, Bool.and_true,
      Bool.and_false, Bool.false_and, Bool.true_and, if_true, if_false,
      ite_true, ite_false, Bool.false_eq_true, reduceIte, unflag_database,
      preflightOld_clear, capturedSettings_clear] at herr ⊢
    obtain ⟨_, _, _, hnb⟩ :=
      plan_fail _ _ _ present ids _ _ _ _ _ Err.healthTimeout
        (by simp) herr
    intro j docs
    have hb := hnb rfl j docs
    rcases hpt : pyTruthy (preflightOld w) with _ | _ <;>
      simp [hpt] at hb ⊢ <;> simp [hb]

theorem find?_key_filter_ne (X : List (String × SettingsDict))
    (o new : String) (hne : new ≠ o) :
    (X.filter (fun p => p.1 != o)).find? (fun p => p.1 == new) =
      X.find? (fun p => p.1 == new) := by
  induction X with
  | nil => rfl
  | cons x t ih =>
    by_cases hx : x.1 = o
    · have h1 : (x.1 != o) = false := by simp [hx]
      have h2 : (x.1 == new) = false := by simp [hx]; exact fun h => hne h.symm
      simp [List.filter_cons, h1, h2, ih]
    · have h1 : (x.1 != o) = true := by simp [hx]
      by_cases h2 : x.1 = new
      · simp [List.filter_cons, h1, h2, hne]
      · have h3 : (x.1 == new) = false := by simp [h2]
        simp [List.filter_cons, h1, h3, ih]

theorem find?_key_map_update_append (l : List (String × SettingsDict))
    (new : String) (d upd : SettingsDict) (h : ∀ q ∈ l, q.1 ≠ new) :
    ((l ++ [(new, d)]).map
        (fun p => if p.1 == new then (p.1, mergeSettings p.2 upd) else p)).find?
      (fun p => p.1 == new) = some (new, mergeSettings d upd) := by
  induction l with
  | nil => simp
  | cons x t ih =>
    have hx : x.1 ≠ new := h x (by simp)
    have h1 : (x.1 == new) = false := by simp [hx]
    simp only [List.cons_append, List.map_cons, List.find?_cons, h1]
    simp only [if_false, Bool.false_eq_true, reduceIte, h1]
    exact ih (fun q hq => h q (by simp [hq]))

theorem handle_store (force : Bool) (pfx : String) (now : Nat)
    (present : Nat → Bool) (ids : List Nat) (w : World)
    (hnc : database_flagged w = false ∨ force = true)
    (hnew : timestamp_index (pfx ++ ALIAS) now ∉ w.store.indices)
    (hnew2 : timestamp_index (pfx ++ ALIAS) now ∉ w.store.aliased)
    (hh : w.store.healthOk = true) (hb : w.store.bulkOk = true)
    (ho : w.store.optimizeOk = true) (hus : w.store.updSettingsOk = true)
    (hua : w.store.updAliasesOk = true)
    (hold : ∀ o, preflightOld w = some o → o ≠ emptyStr →
      o ∈ w.store.indices) :
    (handle true force pfx now present ids w).1.store.aliased =
      (if pyTruthy (preflightOld w) then
        w.store.aliased.filter
          (fun x => x != (preflightOld w).getD emptyStr)
      else w.store.aliased) ++ [timestamp_index (pfx ++ ALIAS) now] ∧
    (handle true force pfx now present ids w).1.store.indices =
      (if pyTruthy (preflightOld w) then
        w.store.indices.filter
          (fun x => x != (preflightOld w).getD emptyStr)
      else w.store.indices) ++ [timestamp_index (pfx ++ ALIAS) now] := by
  rcases hal : w.store.aliased with _ | ⟨o, rest⟩
  · rcases force with _ | _
    · rcases hnc with hnc | hnc
      · refine ⟨?_, ?_⟩ <;>
          simp [handle, runSteps, flag_database, create_index,
            run_indexing, update_alias, unflag_database, delete_index,
            output_summary, preflightOld, capturedSettings, pyTruthy,
            index_webapp, timestamp_index_ne, hal, hnc, hnew, hh, hb, ho,
            hus, hua, storeUpdateSettings, applyAliasAction]
      · cases hnc
    · refine ⟨?_, ?_⟩ <;>
        simp [handle, runSteps, flag_database, create_index,
          run_indexing, update_alias, unflag_database, delete_index,
          output_summary, preflightOld, capturedSettings, pyTruthy,
          index_webapp, timestamp_index_ne, hal, hnew, hh, hb, ho,
          hus, hua, storeUpdateSettings, applyAliasAction, database_flagged]
  · have hnew3 : ¬(timestamp_index (pfx ++ ALIAS) now = o ∨
        timestamp_index (pfx ++ ALIAS) now ∈ rest) := by
      rw [← List.mem_cons, ← hal]
      exact hnew2
    push_neg at hnew3
    obtain ⟨hno, hnr⟩ := hnew3
    by_cases hoe : o = emptyStr
    · subst hoe
      rcases force with _ | _
      · rcases hnc with hnc | hnc
        · refine ⟨?_, ?_⟩ <;>
            simp [handle, runSteps, flag_database, create_index,
              run_indexing, update_alias, unflag_database, delete_index,
              output_summary, preflightOld, capturedSettings, pyTruthy,
              index_webapp, timestamp_index_ne, hal, hnc, hnew, hh, hb, ho,
              hus, hua, hno, hnr, storeUpdateSettings, applyAliasAction]
        · cases hnc
      · refine ⟨?_, ?_⟩ <;>
          simp [handle, runSteps, flag_database, create_index,
            run_indexing, update_alias, unflag_database, delete_index,
            output_summary, preflightOld, capturedSettings, pyTruthy,
            index_webapp, timestamp_index_ne, hal, hnew, hh, hb, ho,
            hus, hua, hno, hnr, storeUpdateSettings, applyAliasAction,
            database_flagged]
    · have hoi : o ∈ w.store.indices := by
        refine hold o ?_ hoe
        simp [preflightOld, hal]
      rcases force with _ | _
      · rcases hnc with hnc | hnc
        · refine ⟨?_, ?_⟩ <;>
            simp [handle, runSteps, flag_database, create_index,
              run_indexing, update_alias, unflag_database, delete_index,
              output_summary, preflightOld, capturedSettings, pyTruthy,
              index_webapp, timestamp_index_ne, hal, hnc, hnew, hh, hb, ho,
              hus, hua, hoe, hoi, hno, hnr, storeUpdateSettings,
              applyAliasAction]
        · cases hnc
      · refine ⟨?_, ?_⟩ <;>
          simp [handle, runSteps, flag_database, create_index,
            run_indexing, update_alias, unflag_database, delete_index,
            output_summary, preflightOld, capturedSettings, pyTruthy,
            index_webapp, timestamp_index_ne, hal, hnew, hh, hb, ho,
            hus, hua, hoe, hoi, hno, hnr, storeUpdateSettings,
            applyAliasAction, database_flagged]

theorem handle_settings (force : Bool) (pfx : String) (now : Nat)
    (present : Nat → Bool) (ids : List Nat) (w : World)
    (hnc : database_flagged w = false ∨ force = true)
    (hnew : timestamp_index (pfx ++ ALIAS) now ∉ w.store.indices)
    (hset : ∀ q ∈ w.store.settingsOf, q.1 ≠ timestamp_index (pfx ++ ALIAS) now)
    (hh : w.store.healthOk = true) (hb : w.store.bulkOk = true)
    (ho : w.store.optimizeOk = true) (hus : w.store.updSettingsOk = true)
    (hua : w.store.updAliasesOk = true)
    (hold : ∀ o, preflightOld w = some o → o ≠ emptyStr →
      o ∈ w.store.indices) :
    lookupSetting (handle true force pfx now present ids w).1.store
      (timestamp_index (pfx ++ ALIAS) now) kNumReplicas =
      some (dictGet (capturedSettings w (preflightOld w)) kNumReplicas
        (SVal.nat DEFAULT_NUM_REPLICAS)) ∧
    lookupSetting (handle true force pfx now present ids w).1.store
      (timestamp_index (pfx ++ ALIAS) now) kRefreshInterval =
      some (SVal.str sFiveSec) := by
  rcases hal : w.store.aliased with _ | ⟨o, rest⟩
  · rcases force with _ | _
    · rcases hnc with hnc | hnc
      · have hw : (handle true false pfx now present ids w).1.store.settingsOf =
            (w.store.settingsOf ++
              [(timestamp_index (pfx ++ ALIAS) now,
                [(kNumReplicas, SVal.nat 0),
                   (kNumShards, dictGet (capturedSettings w (preflightOld w))
                     kNumShards (SVal.nat DEFAULT_NUM_SHARDS)),
                   (kCompressTv, SVal.bool true),
                   (kCompressStored, SVal.bool true),
                   (kRefreshInterval, SVal.str sMinusOne)])]).map
              (fun p => if p.1 == timestamp_index (pfx ++ ALIAS) now then
                (p.1, mergeSettings p.2
                  [(kNumReplicas,
                       dictGet (capturedSettings w (preflightOld w))
                         kNumReplicas (SVal.nat DEFAULT_NUM_REPLICAS)),
                     (kRefreshInterval, SVal.str sFiveSec)])
                else p) := by
          simp [handle, runSteps, flag_database, create_index,
            run_indexing, update_alias, unflag_database, delete_index,
            output_summary, preflightOld, capturedSettings, pyTruthy,
            index_webapp, timestamp_index_ne, hal, hnew, hh, hb, ho,
            hus, hua, storeUpdateSettings, applyAliasAction, hnc]
        constructor <;>
          · simp only [lookupSetting, hw]
            rw [find?_key_map_update_append _ _ _ _ hset]
            simp [mergeSettings, dictInsert, kNumReplicas, kNumShards,
              kRefreshInterval, kCompressTv, kCompressStored]
      · cases hnc
    · have hw : (handle true true pfx now present ids w).1.store.settingsOf =
          (w.store.settingsOf ++
            [(timestamp_index (pfx ++ ALIAS) now,
              [(kNumReplicas, SVal.nat 0),
                 (kNumShards, dictGet (capturedSettings w (preflightOld w))
                   kNumShards (SVal.nat DEFAULT_NUM_SHARDS)),
                 (kCompressTv, SVal.bool true),
                 (kCompressStored, SVal.bool true),
                 (kRefreshInterval, SVal.str sMinusOne)])]).map
            (fun p => if p.1 == timestamp_index (pfx ++ ALIAS) now then
              (p.1, mergeSettings p.2
                [(kNumReplicas,
                     dictGet (capturedSettings w (preflightOld w))
                       kNumReplicas (SVal.nat DEFAULT_NUM_REPLICAS)),
                   (kRefreshInterval, SVal.str sFiveSec)])
              else p) := by
        simp [handle, runSteps, flag_database, create_index,
          run_indexing, update_alias, unflag_database, delete_index,
          output_summary, preflightOld, capturedSettings, pyTruthy,
          index_webapp, timestamp_index_ne, hal, hnew, hh, hb, ho,
          hus, hua, storeUpdateSettings, applyAliasAction, database_flagged]
      constructor <;>
        · simp only [lookupSetting, hw]
          rw [find?_key_map_update_append _ _ _ _ hset]
          simp [mergeSettings, dictInsert, kNumReplicas, kNumShards,
            kRefreshInterval, kCompressTv, kCompressStored]
  · by_cases hoe : o = emptyStr
    · subst hoe
      rcases force with _ | _
      · rcases hnc with hnc | hnc
        · have hw : (handle true false pfx now present ids w).1.store.settingsOf =
              (w.store.settingsOf ++
                [(timestamp_index (pfx ++ ALIAS) now,
                  [(kNumReplicas, SVal.nat 0),
                     (kNumShards, dictGet (capturedSettings w (preflightOld w))
                       kNumShards (SVal.nat DEFAULT_NUM_SHARDS)),
                     (kCompressTv, SVal.bool true),
                     (kCompressStored, SVal.bool true),
                     (kRefreshInterval, SVal.str sMinusOne)])]).map
                (fun p => if p.1 == timestamp_index (pfx ++ ALIAS) now then
                  (p.1, mergeSettings p.2
                    [(kNumReplicas,
                         dictGet (capturedSettings w (preflightOld w))
                           kNumReplicas (SVal.nat DEFAULT_NUM_REPLICAS)),
                       (kRefreshInterval, SVal.str sFiveSec)])
                  else p) := by
            simp [handle, runSteps, flag_database, create_index,
              run_indexing, update_alias, unflag_database, delete_index,
              output_summary, preflightOld, capturedSettings, pyTruthy,
              index_webapp, timestamp_index_ne, hal, hnew, hh, hb, ho,
              hus, hua, storeUpdateSettings, applyAliasAction, hnc]
          constructor <;>
            · simp only [lookupSetting, hw]
              rw [find?_key_map_update_append _ _ _ _ hset]
              simp [mergeSettings, dictInsert, kNumReplicas, kNumShards,
                kRefreshInterval, kCompressTv, kCompressStored]
        · cases hnc
      · have hw : (handle true true pfx now present ids w).1.store.settingsOf =
            (w.store.settingsOf ++
              [(timestamp_index (pfx ++ ALIAS) now,
                [(kNumReplicas, SVal.nat 0),
                   (kNumShards, dictGet (capturedSettings w (preflightOld w))
                     kNumShards (SVal.nat DEFAULT_NUM_SHARDS)),
                   (kCompressTv, SVal.bool true),
                   (kCompressStored, SVal.bool true),
                   (kRefreshInterval, SVal.str sMinusOne)])]).map
              (fun p => if p.1 == timestamp_index (pfx ++ ALIAS) now then
                (p.1, mergeSettings p.2
                  [(kNumReplicas,
                       dictGet (capturedSettings w (preflightOld w))
                         kNumReplicas (SVal.nat DEFAULT_NUM_REPLICAS)),
                     (kRefreshInterval, SVal.str sFiveSec)])
                else p) := by
          simp [handle, runSteps, flag_database, create_index,
            run_indexing, update_alias, unflag_database, delete_index,
            output_summary, preflightOld, capturedSettings, pyTruthy,
            index_webapp, timestamp_index_ne, hal, hnew, hh, hb, ho,
            hus, hua, storeUpdateSettings, applyAliasAction, database_flagged]
        constructor <;>
          · simp only [lookupSetting, hw]
            rw [find?_key_map_update_append _ _ _ _ hset]
            simp [mergeSettings, dictInsert, kNumReplicas, kNumShards,
              kRefreshInterval, kCompressTv, kCompressStored]
    · have hoi : o ∈ w.store.indices := by
        refine hold o ?_ hoe
        simp [preflightOld, hal]
      have hne : timestamp_index (pfx ++ ALIAS) now ≠ o := by
        intro h2
        exact hnew (h2 ▸ hoi)
      rcases force with _ | _
      · rcases hnc with hnc | hnc
        · have hw : (handle true false pfx now present ids w).1.store.settingsOf =
              ((w.store.settingsOf ++
                [(timestamp_index (pfx ++ ALIAS) now,
                  [(kNumReplicas, SVal.nat 0),
                     (kNumShards, dictGet (capturedSettings w (preflightOld w))
                       kNumShards (SVal.nat DEFAULT_NUM_SHARDS)),
                     (kCompressTv, SVal.bool true),
                     (kCompressStored, SVal.bool true),
                     (kRefreshInterval, SVal.str sMinusOne)])]).map
                (fun p => if p.1 == timestamp_index (pfx ++ ALIAS) now then
                  (p.1, mergeSettings p.2
                    [(kNumReplicas,
                         dictGet (capturedSettings w (preflightOld w))
                           kNumReplicas (SVal.nat DEFAULT_NUM_REPLICAS)),
                       (kRefreshInterval, SVal.str sFiveSec)])
                  else p)).filter (fun p => p.1 != o) := by
            simp [handle, runSteps, flag_database, create_index,
              run_indexing, update_alias, unflag_database, delete_index,
              output_summary, preflightOld, capturedSettings, pyTruthy,
              index_webapp, timestamp_index_ne, hal, hnew, hh, hb, ho,
              hus, hua, storeUpdateSettings, applyAliasAction, hnc, hoe, hoi]
          constructor <;>
            · simp only [lookupSetting, hw]
              rw [find?_key_filter_ne _ o _ hne]
              rw [find?_key_map_update_append _ _ _ _ hset]
              simp [mergeSettings, dictInsert, kNumReplicas, kNumShards,
                kRefreshInterval, kCompressTv, kCompressStored]
        · cases hnc
      · have hw : (handle true true pfx now present ids w).1.store.settingsOf =
            ((w.store.settingsOf ++
              [(timestamp_index (pfx ++ ALIAS) now,
                [(kNumReplicas, SVal.nat 0),
                   (kNumShards, dictGet (capturedSettings w (preflightOld w))
                     kNumShards (SVal.nat DEFAULT_NUM_SHARDS)),
                   (kCompressTv, SVal.bool true),
                   (kCompressStored, SVal.bool true),
                   (kRefreshInterval, SVal.str sMinusOne)])]).map
              (fun p => if p.1 == timestamp_index (pfx ++ ALIAS) now then
                (p.1, mergeSettings p.2
                  [(kNumReplicas,
                       dictGet (capturedSettings w (preflightOld w))
                         kNumReplicas (SVal.nat DEFAULT_NUM_REPLICAS)),
                     (kRefreshInterval, SVal.str sFiveSec)])
                else p)).filter (fun p => p.1 != o) := by
          simp [handle, runSteps, flag_database, create_index,
            run_indexing, update_alias, unflag_database, delete_index,
            output_summary, preflightOld, capturedSettings, pyTruthy,
            index_webapp, timestamp_index_ne, hal, hnew, hh, hb, ho,
            hus, hua, storeUpdateSettings, applyAliasAction, database_flagged, hoe, hoi]
        constructor <;>
          · simp only [lookupSetting, hw]
            rw [find?_key_filter_ne _ o _ hne]
            rw [find?_key_map_update_append _ _ _ _ hset]
            simp [mergeSettings, dictInsert, kNumReplicas, kNumShards,
              kRefreshInterval, kCompressTv, kCompressStored]


/-- C2: while a `Reindexing` record exists and `force` is false, the
command raises the CommandError instructing the operator to use
`--force`, issues no calls at all, and leaves the world unchanged, so
no index is created, deleted, written to, or re-aliased. -/
theorem C2_concurrent_guard (force : Bool) (pfx : String) (now : Nat)
    (present : Nat → Bool) (ids : List Nat) (w : World)
    (hflag : database_flagged w = true) (hforce : force = false) :
    handle true force pfx now present ids w =
      (w, [], some (Err.commandError msgConcurrent)) := by
  subst hforce
  simp [handle, hflag]

/-- Witness for C2 at a concrete flagged world. -/
theorem C2_witness :
    handle true false emptyStr 0 presTrue [] wFlagged =
      (wFlagged, [], some (Err.commandError msgConcurrent)) :=
  C2_concurrent_guard false emptyStr 0 presTrue [] wFlagged rfl rfl

/-- C10: `unflag_database` (used both by the FlagEnd step and by the
force-clear path) deletes every `Reindexing` record unconditionally, so
`database_flagged` is false afterwards however many records existed;
and a forced run's very first call is that unconditional deletion. -/
theorem C10_unflag_clears_all :
    (∀ w : World, unflag_database w =
        ({ w with records := [] }, [Call.dbDeleteAll], none) ∧
      database_flagged (unflag_database w).1 = false) ∧
    (∀ (pfx : String) (now : Nat) (present : Nat → Bool) (ids : List Nat)
        (w : World),
      (handle true true pfx now present ids w).2.1.take 1 =
        [Call.dbDeleteAll]) := by
  constructor
  · intro w
    exact ⟨rfl, rfl⟩
  · intro pfx now present ids w
    simp [handle, unflag_database]

/-- C8 counterexample: the Cleanup deletion of a nonexistent index is
not treated as already-satisfied: it surfaces the store's NotFound
error instead of succeeding. -/
theorem C8_counterexample :
    (delete_index ALIAS wEmptyStore).2.2 = some Err.httpNotFound ∧
    (delete_index ALIAS wEmptyStore).2.2 ≠ none := by decide

/-- C8 amended: `delete_index` on an index name absent from the store
propagates the store's NotFound error and the Cleanup task fails (the
source wraps `ES.delete_index` in no error handling); the already
completed cutover is unaffected because Cleanup runs after it. -/
theorem C8_delete_missing_propagates (n : String) (w : World)
    (h : n ∉ w.store.indices) :
    delete_index n w = (w, [Call.deleteIndex n], some Err.httpNotFound) := by
  simp [delete_index, h]

/-- Witness for the amended C8 at a concrete store. -/
theorem C8_witness :
    delete_index ALIAS wEmptyStore =
      (wEmptyStore, [Call.deleteIndex ALIAS], some Err.httpNotFound) :=
  C8_delete_missing_propagates ALIAS wEmptyStore (by decide)

/-- C6: for a corpus of N indexable identifiers, the BulkLoad step
issues exactly ceil(N/100) bulk submissions (computed as
(N + 99) / 100 in natural division), each carrying at most 100
documents, and issues none when N = 0. -/
theorem C6_bulk_chunks (index : String) (present : Nat → Bool)
    (ids : List Nat) (w : World) (hb : w.store.bulkOk = true) :
    (run_indexing index present ids w).2.2 = none ∧
    (run_indexing index present ids w).2.1.length =
      (ids.length + 99) / 100 ∧
    (∀ c ∈ (run_indexing index present ids w).2.1,
      ∃ j docs, c = Call.bulkIndex j docs ∧ docs.length ≤ 100) ∧
    (ids = [] → (run_indexing index present ids w).2.1 = []) := by
  have h100 : (chunked ids 100).length = (ids.length + 99) / 100 := by
    have h := chunked_length ids 99
    norm_num at h
    exact h
  refine ⟨?_, ?_, ?_, ?_⟩
  · simp [run_indexing, hb]
  · simp [run_indexing, hb, h100]
  · intro c hc
    simp only [run_indexing, hb, if_true, List.mem_map] at hc
    obtain ⟨ch, hch, rfl⟩ := hc
    refine ⟨_, _, rfl, ?_⟩
    calc (ch.filter present).length ≤ ch.length := List.length_filter_le _ _
      _ ≤ 100 := chunked_mem_length ids 100 ch hch
  · intro h
    subst h
    simp [run_indexing, hb, chunked_nil]

/-- Witness for C6 with 250 identifiers: three submissions. -/
theorem C6_witness :
    (run_indexing ALIAS presTrue (List.range 250) wEmptyStore).2.2 = none ∧
    (run_indexing ALIAS presTrue (List.range 250) wEmptyStore).2.1.length =
      ((List.range 250).length + 99) / 100 ∧
    (∀ c ∈ (run_indexing ALIAS presTrue (List.range 250) wEmptyStore).2.1,
      ∃ j docs, c = Call.bulkIndex j docs ∧ docs.length ≤ 100) ∧
    (List.range 250 = [] →
      (run_indexing ALIAS presTrue (List.range 250) wEmptyStore).2.1 = []) :=
  C6_bulk_chunks ALIAS presTrue (List.range 250) wEmptyStore rfl

/-- C7: `create_index` raises the already-exists CommandError on a name
collision; otherwise it issues the create call followed by the health
wait for green status with zero relocating shards and only then
returns; when the bounded wait expires the step fails (the store's
timeout error propagates), and a run that fails this way never issues
any bulk submission, so BulkLoad never starts against a not-yet-ready
index. -/
theorem C7_create_index_guard :
    (∀ (n a : String) (s : SettingsDict) (w : World), n ∈ w.store.indices →
      create_index n a s w =
        (w, [Call.createIndex n s],
         some (Err.commandError (msgAlreadyExists n)))) ∧
    (∀ (n a : String) (s : SettingsDict) (w : World), n ∉ w.store.indices →
      w.store.healthOk = false →
      (create_index n a s w).2.2 = some Err.healthTimeout ∧
      (create_index n a s w).2.1 =
        [Call.createIndex n s, Call.healthWait n sGreen 0]) ∧
    (∀ (n a : String) (s : SettingsDict) (w : World), n ∉ w.store.indices →
      w.store.healthOk = true →
      (create_index n a s w).2.2 = none ∧
      (create_index n a s w).2.1 =
        [Call.createIndex n s, Call.healthWait n sGreen 0]) ∧
    (∀ (force : Bool) (pfx : String) (now : Nat) (present : Nat → Bool)
        (ids : List Nat) (w : World),
      (database_flagged w = false ∨ force = true) →
      (handle true force pfx now present ids w).2.2 =
        some Err.healthTimeout →
      ∀ j docs, Call.bulkIndex j docs ∉
        (handle true force pfx now present ids w).2.1) := by
  refine ⟨?_, ?_, ?_, ?_⟩
  · intro n a s w h
    simp [create_index, h]
  · intro n a s w h1 h2
    constructor <;> simp [create_index, h1, h2]
  · intro n a s w h1 h2
    constructor <;> simp [create_index, h1, h2]
  · intro force pfx now present ids w hnc herr
    exact handle_health_no_bulk force pfx now present ids w hnc herr

/-- Witness for C7: a collision, a timed-out wait, a clean create, and
a timed-out run issuing no bulk call, all at concrete worlds. -/
theorem C7_witness :
    create_index ALIAS ALIAS [] wAliasIdx =
      (wAliasIdx, [Call.createIndex ALIAS []],
       some (Err.commandError (msgAlreadyExists ALIAS))) ∧
    (create_index ALIAS ALIAS [] wNoHealth).2.2 = some Err.healthTimeout ∧
    (create_index ALIAS ALIAS [] wEmptyStore).2.2 = none ∧
    Call.bulkIndex ALIAS [] ∉
      (handle true false emptyStr 0 presTrue [] wNoHealth).2.1 :=
  ⟨C7_create_index_guard.1 ALIAS ALIAS [] wAliasIdx (by decide),
   (C7_create_index_guard.2.1 ALIAS ALIAS [] wNoHealth (by decide) rfl).1,
   (C7_create_index_guard.2.2.1 ALIAS ALIAS [] wEmptyStore (by decide) rfl).1,
   C7_create_index_guard.2.2.2 false emptyStr 0 presTrue [] wNoHealth
     (Or.inl rfl) (by decide) ALIAS []⟩


/-- One call list with no hit for a predicate contributes no count. -/
theorem flag_database_countP (p : Call → Bool) (n : String)
    (o : Option String) (a : String) (t : Nat) (w : World)
    (hp : p (Call.dbCreateRecord n o a t) = false) :
    (flag_database n o a t w).2.1.countP p = 0 := by
  simp [flag_database, List.countP_cons, hp]

theorem create_index_countRA (n a : String) (s : SettingsDict) (w : World) :
    (create_index n a s w).2.1.countP isReadAliases = 0 := by
  rw [List.countP_eq_zero]
  intro c hc
  rcases create_index_calls n a s w c hc with h | h <;> subst h <;>
    simp [isReadAliases]

theorem run_indexing_countRA (i : String) (p : Nat → Bool) (ids : List Nat)
    (w : World) : (run_indexing i p ids w).2.1.countP isReadAliases = 0 := by
  rw [List.countP_eq_zero]
  intro c hc
  obtain ⟨j, docs, rfl⟩ := run_indexing_calls i p ids w c hc
  simp [isReadAliases]

theorem update_alias_countRA (n : String) (o : Option String) (a : String)
    (s : SettingsDict) (w : World) :
    (update_alias n o a s w).2.1.countP isReadAliases = 0 := by
  rw [List.countP_eq_zero]
  intro c hc
  rcases update_alias_calls n o a s w c hc with h | h | ⟨acts, h⟩ <;>
    subst h <;> simp [isReadAliases]

/-- A chain whose every task's trace is free of a predicate yields a
trace free of it, whether or not the chain aborts. -/
theorem runSteps_countP_zero (p : Call → Bool)
    (steps : List (World → World × List Call × Option Err))
    (h : ∀ s ∈ steps, ∀ w, (s w).2.1.countP p = 0) :
    ∀ w, (runSteps steps w).2.1.countP p = 0 := by
  induction steps with
  | nil =>
    intro w
    simp [runSteps]
  | cons s t ih =>
    intro w
    have hs := h s (by simp)
    have ht : ∀ s2 ∈ t, ∀ w2, (s2 w2).2.1.countP p = 0 := by
      intro s2 hs2 w2
      exact h s2 (by simp [hs2]) w2
    rcases he : (s w).2.2 with _ | e
    · simp only [runSteps, he]
      simp [List.countP_append, hs, ih ht]
    · simp only [runSteps, he]
      simp [hs]

/-- The FlagStart-to-Cutover prefix issues no record deletion and no
alias-configuration read, however far it gets. -/
theorem firstFour_countP (new : String) (old : Option String) (now : Nat)
    (present : Nat → Bool) (ids : List Nat) (cS uS : SettingsDict)
    (w : World) :
    (runSteps [flag_database new old ALIAS now,
               create_index new ALIAS cS,
               run_indexing new present ids,
               update_alias new old ALIAS uS] w).2.1.countP
      isDbDeleteAll = 0 ∧
    (runSteps [flag_database new old ALIAS now,
               create_index new ALIAS cS,
               run_indexing new present ids,
               update_alias new old ALIAS uS] w).2.1.countP
      isReadAliases = 0 := by
  constructor
  · refine runSteps_countP_zero _ _ ?_ w
    intro s hs w2
    simp only [List.mem_cons, List.not_mem_nil, or_false] at hs
    rcases hs with rfl | rfl | rfl | rfl
    · exact flag_database_countP _ _ _ _ _ _ rfl
    · exact create_index_countDb _ _ _ _
    · exact run_indexing_countDb _ _ _ _
    · exact update_alias_countDb _ _ _ _ _
  · refine runSteps_countP_zero _ _ ?_ w
    intro s hs w2
    simp only [List.mem_cons, List.not_mem_nil, or_false] at hs
    rcases hs with rfl | rfl | rfl | rfl
    · exact flag_database_countP _ _ _ _ _ _ rfl
    · exact create_index_countRA _ _ _ _
    · exact run_indexing_countRA _ _ _ _
    · exact update_alias_countRA _ _ _ _ _

/-- No task of the FlagStart-to-Cutover prefix can raise the store's
NotFound error. -/
theorem firstFour_err_ne (new : String) (old : Option String) (now : Nat)
    (present : Nat → Bool) (ids : List Nat) (cS uS : SettingsDict)
    (w : World) (e : Err)
    (h : (runSteps [flag_database new old ALIAS now,
                    create_index new ALIAS cS,
                    run_indexing new present ids,
                    update_alias new old ALIAS uS] w).2.2 = some e) :
    e ≠ Err.httpNotFound := by
  set w1 : World :=
    { w with records := w.records ++ [⟨new, old, ALIAS, now⟩] } with hw1
  have hflag : flag_database new old ALIAS now w =
      (w1, [Call.dbCreateRecord new old ALIAS now], none) := rfl
  simp only [runSteps, hflag] at h
  rcases hc : (create_index new ALIAS cS w1).2.2 with _ | e1
  · simp only [hc] at h
    rcases hr : (run_indexing new present ids
        (create_index new ALIAS cS w1).1).2.2 with _ | e2
    · simp only [hr] at h
      rcases hu : (update_alias new old ALIAS uS
          (run_indexing new present ids
            (create_index new ALIAS cS w1).1).1).2.2 with _ | e3
      · simp only [hu] at h
        exact Option.noConfusion h
      · simp only [hu] at h
        have hee := Option.some.inj h
        intro hcon
        subst hcon
        rcases update_alias_err new old ALIAS uS
            (run_indexing new present ids (create_index new ALIAS cS w1).1).1
          with h4 | h4 | h4 | h4 <;> rw [hu, hee] at h4 <;> simp at h4
    · simp only [hr] at h
      have hee := Option.some.inj h
      intro hcon
      subst hcon
      rcases run_indexing_err new present ids
          (create_index new ALIAS cS w1).1 with h4 | h4 <;>
        rw [hr, hee] at h4 <;> simp at h4
  · simp only [hc] at h
    have hee := Option.some.inj h
    intro hcon
    subst hcon
    rcases create_index_err new ALIAS cS w1 with h4 | h4 | h4 <;>
      rw [hc, hee] at h4 <;> simp at h4

/-- A failing deletion touches nothing and surfaces NotFound. -/
theorem delete_index_fail_eq (o : String) (w : World) (e : Err)
    (h : (delete_index o w).2.2 = some e) :
    delete_index o w = (w, [Call.deleteIndex o], some Err.httpNotFound) := by
  by_cases h1 : o ∈ w.store.indices
  · simp [delete_index, h1] at h
  · simp [delete_index, h1]

/-- If the FlagEnd-Cleanup-Summarize tail fails with NotFound, the
failure is Cleanup's: the records were already cleared and the tail's
trace is exactly the FlagEnd deletion followed by the failing
deleteIndex call. -/
theorem restSteps_notfound (b : Bool) (o : String) (w : World)
    (h : (runSteps ([unflag_database] ++ (if b then [delete_index o] else []) ++
      [output_summary]) w).2.2 = some Err.httpNotFound) :
    (runSteps ([unflag_database] ++ (if b then [delete_index o] else []) ++
      [output_summary]) w).1.records = [] ∧
    (runSteps ([unflag_database] ++ (if b then [delete_index o] else []) ++
      [output_summary]) w).2.1 =
      [Call.dbDeleteAll, Call.deleteIndex o] := by
  rcases b with _ | _
  · simp [runSteps, unflag_database, output_summary] at h
  · rcases hd : (delete_index o ({ w with records := [] } : World)).2.2
        with _ | e2
    · simp [runSteps, unflag_database, output_summary, hd] at h
    · have hde := delete_index_fail_eq _ _ _ hd
      constructor <;>
        simp [runSteps, unflag_database, output_summary, hde]

/-- When the whole plan fails with NotFound, the failure is Cleanup's:
FlagEnd has already run (one record deletion in the plan's trace), the
record store ends empty, and Summarize never issues its read. -/
theorem plan_notfound (new : String) (old : Option String) (now : Nat)
    (present : Nat → Bool) (ids : List Nat) (cS uS : SettingsDict)
    (b : Bool) (o : String) (w : World)
    (h : (runSteps ([flag_database new old ALIAS now,
                     create_index new ALIAS cS,
                     run_indexing new present ids,
                     update_alias new old ALIAS uS,
                     unflag_database] ++
                    (if b then [delete_index o] else []) ++
                    [output_summary]) w).2.2 = some Err.httpNotFound) :
    (runSteps ([flag_database new old ALIAS now,
                create_index new ALIAS cS,
                run_indexing new present ids,
                update_alias new old ALIAS uS,
                unflag_database] ++
               (if b then [delete_index o] else []) ++
               [output_summary]) w).1.records = [] ∧
    (runSteps ([flag_database new old ALIAS now,
                create_index new ALIAS cS,
                run_indexing new present ids,
                update_alias new old ALIAS uS,
                unflag_database] ++
               (if b then [delete_index o] else []) ++
               [output_summary]) w).2.1.countP isDbDeleteAll = 1 ∧
    (runSteps ([flag_database new old ALIAS now,
                create_index new ALIAS cS,
                run_indexing new present ids,
                update_alias new old ALIAS uS,
                unflag_database] ++
               (if b then [delete_index o] else []) ++
               [output_summary]) w).2.1.countP isReadAliases = 0 := by
  rw [show ([flag_database new old ALIAS now,
             create_index new ALIAS cS,
             run_indexing new present ids,
             update_alias new old ALIAS uS,
             unflag_database] ++
            (if b then [delete_index o] else []) ++
            [output_summary]) =
      ([flag_database new old ALIAS now,
        create_index new ALIAS cS,
        run_indexing new present ids,
        update_alias new old ALIAS uS] ++
       ([unflag_database] ++ (if b then [delete_index o] else []) ++
        [output_summary])) from by simp] at h ⊢
  rcases h1 : (runSteps [flag_database new old ALIAS now,
                         create_index new ALIAS cS,
                         run_indexing new present ids,
                         update_alias new old ALIAS uS] w).2.2 with _ | e1
  · rw [runSteps_append_ok _ _ _ h1] at h ⊢
    obtain ⟨hdb0, hra0⟩ :=
      firstFour_countP new old now present ids cS uS w
    obtain ⟨hrec2, htr2⟩ := restSteps_notfound b o _ h
    refine ⟨hrec2, ?_, ?_⟩
    · rw [List.countP_append, hdb0, htr2]
      simp [isDbDeleteAll, List.countP_cons]
    · rw [List.countP_append, hra0, htr2]
      simp [isReadAliases, List.countP_cons]
  · rw [runSteps_append_fail _ _ _ _ h1] at h
    have hee : e1 = Err.httpNotFound := by
      rw [h1] at h
      exact Option.some.inj h
    exact absurd hee
      (firstFour_err_ne new old now present ids cS uS w e1 h1)

/-- A run ending in the store's NotFound error failed at Cleanup: the
flag records are gone (FlagEnd already ran — the only deletions are
FlagEnd's and, when forced, the preflight force-clear) and Summarize
never ran (the only alias read is the preflight one). -/
theorem handle_notfound (force : Bool) (pfx : String) (now : Nat)
    (present : Nat → Bool) (ids : List Nat) (w : World)
    (hnc : database_flagged w = false ∨ force = true)
    (herr : (handle true force pfx now present ids w).2.2 =
      some Err.httpNotFound) :
    (handle true force pfx now present ids w).1.records = [] ∧
    (handle true force pfx now present ids w).2.1.countP isDbDeleteAll =
      (if force then 2 else 1) ∧
    (handle true force pfx now present ids w).2.1.countP isReadAliases =
      1 := by
  rcases force with _ | _
  · have hfl : database_flagged w = false := by
      rcases hnc with h | h
      · exact h
      · exact Bool.noConfusion h
    simp only [handle, hfl, Bool.not_true, Bool.not_false, Bool.and_true,
      Bool.and_false, Bool.false_and, Bool.true_and, if_true, if_false,
      ite_true, ite_false, Bool.false_eq_true, reduceIte] at herr ⊢
    obtain ⟨hrec, hdb, hra⟩ :=
      plan_notfound _ _ _ present ids _ _ _ _ _ herr
    refine ⟨hrec, ?_, ?_⟩
    · rcases hpt : pyTruthy (preflightOld w) with _ | _ <;>
        simp [hpt, List.countP_append, List.countP_cons, isDbDeleteAll,
          hdb] <;> simp [hpt] at hdb <;> exact hdb
    · rcases hpt : pyTruthy (preflightOld w) with _ | _ <;>
        simp [hpt, List.countP_append, List.countP_cons, isReadAliases,
          hra] <;> simp [hpt] at hra <;> exact hra
  · simp only [handle, Bool.not_true, Bool.not_false, Bool.and_true,
      Bool.and_false, Bool.false_and, Bool.true_and, if_true, if_false,
      ite_true, ite_false, Bool.false_eq_true, reduceIte, unflag_database,
      preflightOld_clear, capturedSettings_clear] at herr ⊢
    obtain ⟨hrec, hdb, hra⟩ :=
      plan_notfound _ _ _ present ids _ _ _ _ _ herr
    refine ⟨hrec, ?_, ?_⟩
    · rcases hpt : pyTruthy (preflightOld w) with _ | _ <;>
        simp [hpt, List.countP_append, List.countP_cons, isDbDeleteAll,
          hdb] <;> simp [hpt] at hdb <;> exact hdb
    · rcases hpt : pyTruthy (preflightOld w) with _ | _ <;>
        simp [hpt, List.countP_append, List.countP_cons, isReadAliases,
          hra] <;> simp [hpt] at hra <;> exact hra
/-- C3 counterexample: a run over a store whose alias is bound to an
index that no longer exists proceeds through FlagEnd and then fails at
the Cleanup step with the store's NotFound error — a step failure
after which no `Reindexing` record is left in place, refuting the
claim that any step failure leaves the record in place. -/
theorem C3_counterexample :
    (handle true false emptyStr 7 presTrue [] wGhost).2.2 =
      some Err.httpNotFound ∧
    (handle true false emptyStr 7 presTrue [] wGhost).1.records = [] := by
  decide

/-- C3 amended: under Marketplace settings with the concurrency guard
passed, a run in which every external call succeeds executes exactly
the trace `successTrace` — force-clear (when forced), preflight reads,
FlagStart, CreateIndex (create then health wait), BulkLoad, Cutover
(optimize, settings, alias switch), FlagEnd, Cleanup (only when an old
index existed), Summarize, in that order — and ends with no flag
record.  A run failing with any step error other than the
Cleanup-stage NotFound failed before FlagEnd: it performs no FlagEnd
deletion (the only `dbDeleteAll` is the preflight force-clear, when
forced), never reaches Cleanup's `deleteIndex`, and leaves the
`Reindexing` record created at FlagStart in place.  A run failing with
the NotFound error failed at Cleanup, after FlagEnd already deleted
the records: the record store ends empty (the record is not left in
place), the FlagEnd deletion did run, and only Summarize is skipped
(no second alias read). -/
theorem C3_step_order (force : Bool) (pfx : String) (now : Nat)
    (present : Nat → Bool) (ids : List Nat) (w : World)
    (hnc : database_flagged w = false ∨ force = true) :
    ((timestamp_index (pfx ++ ALIAS) now ∉ w.store.indices →
      w.store.healthOk = true → w.store.bulkOk = true →
      w.store.optimizeOk = true → w.store.updSettingsOk = true →
      w.store.updAliasesOk = true →
      (∀ o, preflightOld w = some o → o ≠ emptyStr →
        o ∈ w.store.indices) →
      (handle true force pfx now present ids w).2.2 = none ∧
      (handle true force pfx now present ids w).2.1 =
        successTrace force pfx now present ids w ∧
      (handle true force pfx now present ids w).1.records = []) ∧
    (∀ err, (handle true force pfx now present ids w).2.2 = some err →
      err ≠ Err.httpNotFound →
      (handle true force pfx now present ids w).2.1.countP isDbDeleteAll =
        (if force then 1 else 0) ∧
      (∀ m, Call.deleteIndex m ∉
        (handle true force pfx now present ids w).2.1) ∧
      (handle true force pfx now present ids w).1.records =
        (if force then [] else w.records) ++
          [⟨timestamp_index (pfx ++ ALIAS) now, preflightOld w,
            ALIAS, now⟩]) ∧
    ((handle true force pfx now present ids w).2.2 =
        some Err.httpNotFound →
      (handle true force pfx now present ids w).1.records = [] ∧
      (handle true force pfx now present ids w).2.1.countP isDbDeleteAll =
        (if force then 2 else 1) ∧
      (handle true force pfx now present ids w).2.1.countP isReadAliases =
        1)) := by
  refine ⟨?_, ?_, ?_⟩
  · intro hnew hh hb ho hus hua hold
    exact handle_success force pfx now present ids w hnc hnew hh hb ho
      hus hua hold
  · intro err herr hnf
    exact handle_fail force pfx now present ids w err hnc herr hnf
  · intro herr
    exact handle_notfound force pfx now present ids w hnc herr

/-- Witness for C3: a fully successful run over a concrete old-index
world; a run aborted by the health-wait timeout that leaves the flag
record in place and never deletes; and a run failing at Cleanup whose
records are already gone. -/
theorem C3_witness :
    ((handle true false emptyStr 7 presTrue [1, 2, 3] wOld).2.2 = none ∧
     (handle true false emptyStr 7 presTrue [1, 2, 3] wOld).2.1 =
       successTrace false emptyStr 7 presTrue [1, 2, 3] wOld ∧
     (handle true false emptyStr 7 presTrue [1, 2, 3] wOld).1.records =
       []) ∧
    ((handle true false emptyStr 0 presTrue [] wNoHealth).2.1.countP
        isDbDeleteAll = (if false then 1 else 0) ∧
     (∀ m, Call.deleteIndex m ∉
       (handle true false emptyStr 0 presTrue [] wNoHealth).2.1) ∧
     (handle true false emptyStr 0 presTrue [] wNoHealth).1.records =
       (if false then [] else wNoHealth.records) ++
         [⟨timestamp_index (emptyStr ++ ALIAS) 0, preflightOld wNoHealth,
           ALIAS, 0⟩]) ∧
    ((handle true false emptyStr 7 presTrue [] wGhost).1.records = [] ∧
     (handle true false emptyStr 7 presTrue [] wGhost).2.1.countP
        isDbDeleteAll = (if false then 2 else 1) ∧
     (handle true false emptyStr 7 presTrue [] wGhost).2.1.countP
        isReadAliases = 1) :=
  ⟨(C3_step_order false emptyStr 7 presTrue [1, 2, 3] wOld
      (Or.inl rfl)).1 (by decide) rfl rfl rfl rfl rfl
      (fun o hoe hne => (Option.some.inj hoe) ▸
        (by decide : oldIdx ∈ wOld.store.indices)),
   (C3_step_order false emptyStr 0 presTrue [] wNoHealth
      (Or.inl rfl)).2.1 Err.healthTimeout (by decide) (by decide),
   (C3_step_order false emptyStr 7 presTrue [] wGhost
      (Or.inl rfl)).2.2 (by decide)⟩

/-- C1: in a successful run the whole trace contains exactly one
`updateAliases` call — the Cutover one — whose action list is the add
action binding the new index to the alias followed by a remove action
for the old index exactly when an old index existed at preflight; and
because the switch is that single call, a store with exactly one bound
index before the run (or none, on a fresh system) ends with exactly
the new index bound. -/
theorem C1_alias_switch (force : Bool) (pfx : String) (now : Nat)
    (present : Nat → Bool) (ids : List Nat) (w : World)
    (hnc : database_flagged w = false ∨ force = true)
    (hnew : timestamp_index (pfx ++ ALIAS) now ∉ w.store.indices)
    (hnew2 : timestamp_index (pfx ++ ALIAS) now ∉ w.store.aliased)
    (hh : w.store.healthOk = true) (hb : w.store.bulkOk = true)
    (ho : w.store.optimizeOk = true) (hus : w.store.updSettingsOk = true)
    (hua : w.store.updAliasesOk = true)
    (hold : ∀ o, preflightOld w = some o → o ≠ emptyStr →
      o ∈ w.store.indices) :
    (handle true force pfx now present ids w).2.1.filter
        isUpdateAliasesCall =
      [Call.updateAliases
        ([AliasAction.add (timestamp_index (pfx ++ ALIAS) now) ALIAS] ++
         (if pyTruthy (preflightOld w) then
           [AliasAction.remove ((preflightOld w).getD emptyStr) ALIAS]
          else []))] ∧
    (w.store.aliased = [] →
      (handle true force pfx now present ids w).1.store.aliased =
        [timestamp_index (pfx ++ ALIAS) now]) ∧
    (∀ o rest, w.store.aliased = o :: rest → o ≠ emptyStr → rest = [] →
      (handle true force pfx now present ids w).1.store.aliased =
        [timestamp_index (pfx ++ ALIAS) now]) := by
  obtain ⟨he, ht, hr⟩ :=
    handle_success force pfx now present ids w hnc hnew hh hb ho hus hua hold
  obtain ⟨ha, hi⟩ :=
    handle_store force pfx now present ids w hnc hnew hnew2 hh hb ho hus
      hua hold
  refine ⟨?_, ?_, ?_⟩
  · rw [ht]
    rcases hpt : pyTruthy (preflightOld w) with _ | _ <;>
      rcases force with _ | _ <;>
      simp [successTrace, isUpdateAliasesCall, List.filter_append,
        List.filter_map, hpt]
  · intro h
    rw [ha]
    simp [preflightOld, h, pyTruthy]
  · intro o rest hal hoe hrest
    subst hrest
    rw [ha]
    simp [preflightOld, hal, pyTruthy, hoe]

/-- Witness for C1 at a concrete single-bound world: one alias switch
call with add plus remove, ending with only the new index bound. -/
theorem C1_witness :
    (handle true false emptyStr 7 presTrue [1, 2, 3] wOld).2.1.filter
        isUpdateAliasesCall =
      [Call.updateAliases
        ([AliasAction.add (timestamp_index (emptyStr ++ ALIAS) 7) ALIAS] ++
         (if pyTruthy (preflightOld wOld) then
           [AliasAction.remove ((preflightOld wOld).getD emptyStr) ALIAS]
          else []))] ∧
    (handle true false emptyStr 7 presTrue [1, 2, 3] wOld).1.store.aliased =
      [timestamp_index (emptyStr ++ ALIAS) 7] :=
  ⟨(C1_alias_switch false emptyStr 7 presTrue [1, 2, 3] wOld (Or.inl rfl)
      (by decide) (by decide) rfl rfl rfl rfl rfl
      (fun o hoe hne => (Option.some.inj hoe) ▸
        (by decide : oldIdx ∈ wOld.store.indices))).1,
   (C1_alias_switch false emptyStr 7 presTrue [1, 2, 3] wOld (Or.inl rfl)
      (by decide) (by decide) rfl rfl rfl rfl rfl
      (fun o hoe hne => (Option.some.inj hoe) ▸
        (by decide : oldIdx ∈ wOld.store.indices))).2.2 oldIdx [] rfl
      (by decide) rfl⟩

/-- C4 counterexample: a successful run over an old index whose
captured settings carry refresh_interval "30s" records "5s" — not the
captured value — on the new index, because Cutover always writes the
fixed value "5s". -/
theorem C4_counterexample :
    (handle true false emptyStr 7 presTrue [1, 2, 3] wOld).2.2 = none ∧
    pyTruthy (preflightOld wOld) = true ∧
    dictGet (capturedSettings wOld (preflightOld wOld)) kRefreshInterval
      (SVal.str sFiveSec) = SVal.str sThirty ∧
    lookupSetting
      (handle true false emptyStr 7 presTrue [1, 2, 3] wOld).1.store
      (timestamp_index (emptyStr ++ ALIAS) 7) kRefreshInterval =
      some (SVal.str sFiveSec) ∧
    SVal.str sFiveSec ≠ SVal.str sThirty := by decide

/-- C4 amended: after a successful Cutover the new index records the
replica count captured from the old index's settings before the
rebuild (default 2 when no old index existed or its settings were
unavailable), while the refresh interval recorded is always the fixed
value "5s", regardless of the old index's refresh interval. -/
theorem C4_cutover_settings (force : Bool) (pfx : String) (now : Nat)
    (present : Nat → Bool) (ids : List Nat) (w : World)
    (hnc : database_flagged w = false ∨ force = true)
    (hnew : timestamp_index (pfx ++ ALIAS) now ∉ w.store.indices)
    (hset : ∀ q ∈ w.store.settingsOf,
      q.1 ≠ timestamp_index (pfx ++ ALIAS) now)
    (hh : w.store.healthOk = true) (hb : w.store.bulkOk = true)
    (ho : w.store.optimizeOk = true) (hus : w.store.updSettingsOk = true)
    (hua : w.store.updAliasesOk = true)
    (hold : ∀ o, preflightOld w = some o → o ≠ emptyStr →
      o ∈ w.store.indices) :
    lookupSetting (handle true force pfx now present ids w).1.store
      (timestamp_index (pfx ++ ALIAS) now) kNumReplicas =
      some (dictGet (capturedSettings w (preflightOld w)) kNumReplicas
        (SVal.nat DEFAULT_NUM_REPLICAS)) ∧
    lookupSetting (handle true force pfx now present ids w).1.store
      (timestamp_index (pfx ++ ALIAS) now) kRefreshInterval =
      some (SVal.str sFiveSec) :=
  handle_settings force pfx now present ids w hnc hnew hset hh hb ho hus
    hua hold

/-- Witness for the amended C4 at a concrete old-index world. -/
theorem C4_witness :
    lookupSetting
      (handle true false emptyStr 7 presTrue [1, 2, 3] wOld).1.store
      (timestamp_index (emptyStr ++ ALIAS) 7) kNumReplicas =
      some (dictGet (capturedSettings wOld (preflightOld wOld))
        kNumReplicas (SVal.nat DEFAULT_NUM_REPLICAS)) ∧
    lookupSetting
      (handle true false emptyStr 7 presTrue [1, 2, 3] wOld).1.store
      (timestamp_index (emptyStr ++ ALIAS) 7) kRefreshInterval =
      some (SVal.str sFiveSec) :=
  C4_cutover_settings false emptyStr 7 presTrue [1, 2, 3] wOld
    (Or.inl rfl) (by decide) (by decide) rfl rfl rfl rfl rfl
    (fun o hoe hne => (Option.some.inj hoe) ▸
      (by decide : oldIdx ∈ wOld.store.indices))

/-- C5: the single `createIndex` call of a run carries replicas forced
to 0, the shard count read from the captured settings with default
`DEFAULT_NUM_SHARDS` = 5, both store-compression flags enabled, and
refresh interval "-1" (disabled); the single `updateSettings` call of
Cutover restores the captured replica count with default
`DEFAULT_NUM_REPLICAS` = 2; and the captured settings are empty exactly
when no old index existed or its settings were unavailable, making the
lookups fall back to those defaults. -/
theorem C5_create_index_settings (force : Bool) (pfx : String) (now : Nat)
    (present : Nat → Bool) (ids : List Nat) (w : World)
    (hnc : database_flagged w = false ∨ force = true)
    (hnew : timestamp_index (pfx ++ ALIAS) now ∉ w.store.indices)
    (hh : w.store.healthOk = true) (hb : w.store.bulkOk = true)
    (ho : w.store.optimizeOk = true) (hus : w.store.updSettingsOk = true)
    (hua : w.store.updAliasesOk = true)
    (hold : ∀ o, preflightOld w = some o → o ≠ emptyStr →
      o ∈ w.store.indices) :
    (handle true force pfx now present ids w).2.1.filter
        isCreateIndexCall =
      [Call.createIndex (timestamp_index (pfx ++ ALIAS) now)
        [(kNumReplicas, SVal.nat 0),
         (kNumShards, dictGet (capturedSettings w (preflightOld w))
           kNumShards (SVal.nat DEFAULT_NUM_SHARDS)),
         (kCompressTv, SVal.bool true), (kCompressStored, SVal.bool true),
         (kRefreshInterval, SVal.str sMinusOne)]] ∧
    (handle true force pfx now present ids w).2.1.filter
        isUpdateSettingsCall =
      [Call.updateSettings (timestamp_index (pfx ++ ALIAS) now)
        [(kNumReplicas, dictGet (capturedSettings w (preflightOld w))
           kNumReplicas (SVal.nat DEFAULT_NUM_REPLICAS)),
         (kRefreshInterval, SVal.str sFiveSec)]] ∧
    (pyTruthy (preflightOld w) = false ∨
      (preflightOld w).getD emptyStr ∉ w.store.indices →
      capturedSettings w (preflightOld w) = []) ∧
    dictGet [] kNumReplicas (SVal.nat DEFAULT_NUM_REPLICAS) =
      SVal.nat 2 ∧
    dictGet [] kNumShards (SVal.nat DEFAULT_NUM_SHARDS) = SVal.nat 5 := by
  obtain ⟨he, ht, hr⟩ :=
    handle_success force pfx now present ids w hnc hnew hh hb ho hus hua hold
  refine ⟨?_, ?_, ?_, by decide, by decide⟩
  · rw [ht]
    rcases hpt : pyTruthy (preflightOld w) with _ | _ <;>
      rcases force with _ | _ <;>
      simp [successTrace, isCreateIndexCall, List.filter_append,
        List.filter_map, hpt]
  · rw [ht]
    rcases hpt : pyTruthy (preflightOld w) with _ | _ <;>
      rcases force with _ | _ <;>
      simp [successTrace, isUpdateSettingsCall, List.filter_append,
        List.filter_map, hpt]
  · intro h
    rcases h with h | h
    · simp [capturedSettings, h]
    · rcases hpt : pyTruthy (preflightOld w) with _ | _
      · simp [capturedSettings, hpt]
      · simp [capturedSettings, hpt, h]

/-- Witness for C5 at a concrete old-index world. -/
theorem C5_witness :
    (handle true false emptyStr 7 presTrue [1, 2, 3] wOld).2.1.filter
        isCreateIndexCall =
      [Call.createIndex (timestamp_index (emptyStr ++ ALIAS) 7)
        [(kNumReplicas, SVal.nat 0),
         (kNumShards, dictGet (capturedSettings wOld (preflightOld wOld))
           kNumShards (SVal.nat DEFAULT_NUM_SHARDS)),
         (kCompressTv, SVal.bool true), (kCompressStored, SVal.bool true),
         (kRefreshInterval, SVal.str sMinusOne)]] ∧
    (handle true false emptyStr 7 presTrue [1, 2, 3] wOld).2.1.filter
        isUpdateSettingsCall =
      [Call.updateSettings (timestamp_index (emptyStr ++ ALIAS) 7)
        [(kNumReplicas, dictGet (capturedSettings wOld (preflightOld wOld))
           kNumReplicas (SVal.nat DEFAULT_NUM_REPLICAS)),
         (kRefreshInterval, SVal.str sFiveSec)]] :=
  ⟨(C5_create_index_settings false emptyStr 7 presTrue [1, 2, 3] wOld
      (Or.inl rfl) (by decide) rfl rfl rfl rfl rfl
      (fun o hoe hne => (Option.some.inj hoe) ▸
        (by decide : oldIdx ∈ wOld.store.indices))).1,
   (C5_create_index_settings false emptyStr 7 presTrue [1, 2, 3] wOld
      (Or.inl rfl) (by decide) rfl rfl rfl rfl rfl
      (fun o hoe hne => (Option.some.inj hoe) ▸
        (by decide : oldIdx ∈ wOld.store.indices))).2.1⟩

/-- C9: when the alias is bound to several indices at preflight, the
workflow takes only the first returned binding as the old index: after
a successful run every other previously-bound index is still bound to
the alias and still exists in the store, the new index is bound as
well — so the final state can have more than one index bound — and
the Cleanup deletion only ever targets that first binding. -/
theorem C9_first_binding_only (force : Bool) (pfx : String) (now : Nat)
    (present : Nat → Bool) (ids : List Nat) (w : World) (o : String)
    (rest : List String) (hal : w.store.aliased = o :: rest)
    (hoe : o ≠ emptyStr)
    (hnc : database_flagged w = false ∨ force = true)
    (hnew : timestamp_index (pfx ++ ALIAS) now ∉ w.store.indices)
    (hnew2 : timestamp_index (pfx ++ ALIAS) now ∉ w.store.aliased)
    (hh : w.store.healthOk = true) (hb : w.store.bulkOk = true)
    (ho : w.store.optimizeOk = true) (hus : w.store.updSettingsOk = true)
    (hua : w.store.updAliasesOk = true)
    (hold : ∀ x, preflightOld w = some x → x ≠ emptyStr →
      x ∈ w.store.indices) :
    (∀ x ∈ rest, x ≠ o →
      x ∈ (handle true force pfx now present ids w).1.store.aliased) ∧
    (∀ x ∈ rest, x ≠ o → x ∈ w.store.indices →
      x ∈ (handle true force pfx now present ids w).1.store.indices) ∧
    timestamp_index (pfx ++ ALIAS) now ∈
      (handle true force pfx now present ids w).1.store.aliased ∧
    (∀ m, Call.deleteIndex m ∈
      (handle true force pfx now present ids w).2.1 → m = o) := by
  obtain ⟨he, ht, hr⟩ :=
    handle_success force pfx now present ids w hnc hnew hh hb ho hus hua hold
  obtain ⟨ha, hi⟩ :=
    handle_store force pfx now present ids w hnc hnew hnew2 hh hb ho hus
      hua hold
  refine ⟨?_, ?_, ?_, ?_⟩
  · intro x hx hxo
    rw [ha]
    simp [preflightOld, hal, pyTruthy, hoe, List.mem_filter, hx, hxo]
  · intro x hx hxo hxi
    rw [hi]
    simp [preflightOld, hal, pyTruthy, hoe, List.mem_filter, hxi, hxo]
  · rw [ha]
    simp
  · intro m hm
    rw [ht] at hm
    rcases force with _ | _ <;>
      simp [successTrace, preflightOld, hal, pyTruthy, hoe] at hm <;>
      exact hm

/-- Witness for C9 at a world with two indices bound to the alias: the
second binding survives the run while the new index is bound too. -/
theorem C9_witness :
    oldIdx2 ∈
      (handle true false emptyStr 7 presTrue [] wTwoBound).1.store.aliased ∧
    oldIdx2 ∈
      (handle true false emptyStr 7 presTrue [] wTwoBound).1.store.indices ∧
    timestamp_index (emptyStr ++ ALIAS) 7 ∈
      (handle true false emptyStr 7 presTrue [] wTwoBound).1.store.aliased :=
  ⟨(C9_first_binding_only false emptyStr 7 presTrue [] wTwoBound oldIdx
      [oldIdx2] rfl (by decide) (Or.inl rfl) (by decide) (by decide) rfl
      rfl rfl rfl rfl
      (fun x hx hne => (Option.some.inj hx) ▸
        (by decide : oldIdx ∈ wTwoBound.store.indices))).1 oldIdx2
      (by decide) (by decide),
   (C9_first_binding_only false emptyStr 7 presTrue [] wTwoBound oldIdx
      [oldIdx2] rfl (by decide) (Or.inl rfl) (by decide) (by decide) rfl
      rfl rfl rfl rfl
      (fun x hx hne => (Option.some.inj hx) ▸
        (by decide : oldIdx ∈ wTwoBound.store.indices))).2.1 oldIdx2
      (by decide) (by decide) (by decide),
   (C9_first_binding_only false emptyStr 7 presTrue [] wTwoBound oldIdx
      [oldIdx2] rfl (by decide) (Or.inl rfl) (by decide) (by decide) rfl
      rfl rfl rfl rfl
      (fun x hx hne => (Option.some.inj hx) ▸
        (by decide : oldIdx ∈ wTwoBound.store.indices))).2.2.1⟩
